import Mathlib

/-!
Verification development for the ray-tracing core of the repository
(`src/main.rs`, `src/sphere.rs`, `src/cube.rs`, `src/intersect.rs`,
`src/light.rs`, `src/material.rs`, `src/texture.rs`, `src/camera.rs`).

Numbers: every `f32` value is modelled by `XQ`, an exact rational extended
with the two infinities and NaN.  Rounding is idealized away (literals such
as `0.3`, `1e-3`, `1e-4` are taken as the exact rationals they denote), but
the special IEEE-754 values and their Rust semantics are kept, because the
cube slab test in `cube.rs` depends on them (`1.0 / 0.0 = inf`,
`0.0 * inf = NaN`, every comparison with NaN is false, and `f32::min` /
`f32::max` ignore a NaN argument).  There is no negative zero in the model.

Transcendental `f32` intrinsics (`sqrt`, `powf`, `atan2`, `asin`, `sin`,
`cos`) and the constant `PI` are platform primitives, not code of this
repository; they are passed around as an explicit `MathOps` record of
rational-valued functions.  Theorems that depend on properties of these
functions state those properties as hypotheses (all of which hold for the
real functions), and concrete witnesses instantiate `MathOps` with explicit
tables.

Machine integer casts are modelled after Rust: `as u8` and `as usize` from a
float saturate (NaN goes to 0) and truncate toward zero; `u8 as u32 / as f32`
are exact.
-/

set_option maxHeartbeats 4000000
set_option maxRecDepth 8000

/-- Truncation toward zero on the rationals (the value of Rust `f32::trunc`
on a finite float, exact arithmetic). -/
def ratTrunc (q : ℚ) : ℚ := if q < 0 then ((⌈q⌉ : ℤ) : ℚ) else ((⌊q⌋ : ℤ) : ℚ)

/-- Model of an `f32` value: a finite (exact) rational, `+inf`, `-inf` or NaN. -/
inductive XQ where
  | fin (q : ℚ)
  | pinf
  | ninf
  | nan
deriving DecidableEq

namespace XQ

/-- IEEE negation. -/
def neg : XQ → XQ
  | fin q => fin (-q)
  | pinf => ninf
  | ninf => pinf
  | nan => nan

/-- IEEE addition (`inf + -inf = NaN`; NaN propagates). -/
def add : XQ → XQ → XQ
  | nan, _ => nan
  | _, nan => nan
  | fin a, fin b => fin (a + b)
  | fin _, pinf => pinf
  | fin _, ninf => ninf
  | pinf, fin _ => pinf
  | ninf, fin _ => ninf
  | pinf, pinf => pinf
  | ninf, ninf => ninf
  | pinf, ninf => nan
  | ninf, pinf => nan

/-- IEEE subtraction, as addition of the negation (equivalent given that the
model has no negative zero). -/
def sub (a b : XQ) : XQ := add a (neg b)

/-- IEEE multiplication (`0 * inf = NaN`, sign rules for infinities; NaN
propagates). -/
def mul : XQ → XQ → XQ
  | nan, _ => nan
  | _, nan => nan
  | fin a, fin b => fin (a * b)
  | fin a, pinf => if 0 < a then pinf else if a < 0 then ninf else nan
  | fin a, ninf => if 0 < a then ninf else if a < 0 then pinf else nan
  | pinf, fin b => if 0 < b then pinf else if b < 0 then ninf else nan
  | ninf, fin b => if 0 < b then ninf else if b < 0 then pinf else nan
  | pinf, pinf => pinf
  | pinf, ninf => ninf
  | ninf, pinf => ninf
  | ninf, ninf => pinf

/-- IEEE division.  With no negative zero in the model, `a / 0` for positive
`a` is `+inf` (Rust `1.0 / 0.0`), `0 / 0 = NaN`, `a / inf = 0`,
`inf / inf = NaN`. -/
def div : XQ → XQ → XQ
  | nan, _ => nan
  | _, nan => nan
  | fin a, fin b =>
      if b = 0 then (if 0 < a then pinf else if a < 0 then ninf else nan)
      else fin (a / b)
  | fin _, pinf => fin 0
  | fin _, ninf => fin 0
  | pinf, fin b => if b < 0 then ninf else pinf
  | ninf, fin b => if b < 0 then pinf else ninf
  | pinf, pinf => nan
  | pinf, ninf => nan
  | ninf, pinf => nan
  | ninf, ninf => nan

instance : Neg XQ := ⟨XQ.neg⟩
instance : Add XQ := ⟨XQ.add⟩
instance : Sub XQ := ⟨XQ.sub⟩
instance : Mul XQ := ⟨XQ.mul⟩
instance : Div XQ := ⟨XQ.div⟩

/-- Rust `<` on `f32`: false whenever an argument is NaN. -/
def blt : XQ → XQ → Bool
  | fin a, fin b => decide (a < b)
  | fin _, pinf => true
  | ninf, fin _ => true
  | ninf, pinf => true
  | _, _ => false

/-- Rust `<=` on `f32`: false whenever an argument is NaN. -/
def ble : XQ → XQ → Bool
  | fin a, fin b => decide (a ≤ b)
  | fin _, pinf => true
  | ninf, fin _ => true
  | ninf, ninf => true
  | ninf, pinf => true
  | pinf, pinf => true
  | _, _ => false

/-- Rust `f32::min`: if one argument is NaN the other is returned, otherwise
`if self < other { self } else { other }`. -/
def fmin (a b : XQ) : XQ :=
  match a, b with
  | nan, x => x
  | x, nan => x
  | x, y => if blt x y then x else y

/-- Rust `f32::max`: if one argument is NaN the other is returned, otherwise
`if self > other { self } else { other }`. -/
def fmax (a b : XQ) : XQ :=
  match a, b with
  | nan, x => x
  | x, nan => x
  | x, y => if blt y x then x else y

/-- Rust `f32::abs`. -/
def fabs : XQ → XQ
  | fin q => fin |q|
  | pinf => pinf
  | ninf => pinf
  | nan => nan

/-- Rust `f32::sqrt`, parameterized by the platform square root restricted to
nonnegative finite arguments: `sqrt` of a negative number is NaN, of `+inf`
is `+inf`. -/
def sqrtWith (s : ℚ → ℚ) : XQ → XQ
  | fin q => if q < 0 then nan else fin (s q)
  | pinf => pinf
  | ninf => nan
  | nan => nan

/-- Rust `f32::fract` (`x - x.trunc()`); NaN on non-finite input. -/
def fract : XQ → XQ
  | fin q => fin (q - ratTrunc q)
  | _ => nan

/-- Rust `%` on `f32` (remainder with the sign of the dividend):
`a % b = a - b * trunc(a / b)`; `a % 0 = NaN`, finite `a % inf = a`. -/
def frem : XQ → XQ → XQ
  | fin a, fin b => if b = 0 then nan else fin (a - b * ratTrunc (a / b))
  | fin a, pinf => fin a
  | fin a, ninf => fin a
  | _, _ => nan

/-- Rust `f32::clamp(self, lo, hi)`:
`if self < lo { lo } else if self > hi { hi } else { self }`.  (Rust asserts
`lo <= hi`; every use in the source satisfies this for the real value of
`PI`, so the assertion is not modelled.) -/
def fclamp (x lo hi : XQ) : XQ :=
  if blt x lo then lo else if blt hi x then hi else x

/-- Rust `as u8` cast from `f32`: saturating, truncates toward zero,
NaN goes to 0. -/
def toU8 : XQ → ℕ
  | nan => 0
  | ninf => 0
  | pinf => 255
  | fin q => if q ≤ 0 then 0 else if 255 ≤ q then 255 else Int.toNat ⌊q⌋

/-- Rust `as usize` cast from `f32` (64-bit): saturating, truncates toward
zero, NaN goes to 0. -/
def toUsize : XQ → ℕ
  | nan => 0
  | ninf => 0
  | pinf => 2 ^ 64 - 1
  | fin q =>
      if q ≤ 0 then 0
      else if ((2 ^ 64 - 1 : ℕ) : ℚ) ≤ q then 2 ^ 64 - 1
      else Int.toNat ⌊q⌋

end XQ

/-- Cast of a machine integer (`u8`, `u32`, `usize`) to `f32`; exact in the
model. -/
def natF (n : ℕ) : XQ := XQ.fin (n : ℚ)

/-- The platform math intrinsics used by the source, as explicit parameters:
`f32::sqrt`, `f32::powf`, `f32::atan2`, `f32::asin`, `f32::sin`, `f32::cos`
(as functions of the finite arguments) and the constant `std::f32::consts::PI`. -/
structure MathOps where
  sqrt : ℚ → ℚ
  powf : ℚ → ℚ → ℚ
  atan2 : ℚ → ℚ → ℚ
  asin : ℚ → ℚ
  sin : ℚ → ℚ
  cos : ℚ → ℚ
  pi : ℚ

/-- Lift of the platform square root to the `f32` model. -/
def xsqrt (M : MathOps) : XQ → XQ := XQ.sqrtWith M.sqrt

/-- Lift of `f32::powf`; only the all-finite case matters for the claims,
other cases are mapped to NaN. -/
def xpow (M : MathOps) : XQ → XQ → XQ
  | XQ.fin b, XQ.fin e => XQ.fin (M.powf b e)
  | _, _ => XQ.nan

/-- Lift of `f32::atan2` (`self.atan2(other)`); non-finite cases to NaN. -/
def xatan2 (M : MathOps) : XQ → XQ → XQ
  | XQ.fin y, XQ.fin x => XQ.fin (M.atan2 y x)
  | _, _ => XQ.nan

/-- Lift of `f32::asin`; non-finite cases to NaN. -/
def xasin (M : MathOps) : XQ → XQ
  | XQ.fin q => XQ.fin (M.asin q)
  | _ => XQ.nan

/-- Lift of `f32::sin`; non-finite cases to NaN. -/
def xsin (M : MathOps) : XQ → XQ
  | XQ.fin q => XQ.fin (M.sin q)
  | _ => XQ.nan

/-- Lift of `f32::cos`; non-finite cases to NaN. -/
def xcos (M : MathOps) : XQ → XQ
  | XQ.fin q => XQ.fin (M.cos q)
  | _ => XQ.nan

/-- `nalgebra_glm::Vec3`: an (x, y, z) triple of `f32` values. -/
structure V3 where
  x : XQ
  y : XQ
  z : XQ
deriving DecidableEq

namespace V3

def add (a b : V3) : V3 := ⟨a.x + b.x, a.y + b.y, a.z + b.z⟩

def sub (a b : V3) : V3 := ⟨a.x - b.x, a.y - b.y, a.z - b.z⟩

def neg (a : V3) : V3 := ⟨-a.x, -a.y, -a.z⟩

/-- Scalar times vector (`s * v` and `v * s` in nalgebra agree). -/
def smul (s : XQ) (v : V3) : V3 := ⟨s * v.x, s * v.y, s * v.z⟩

/-- `Vec3::dot`, summed in component order `x`, `y`, `z`. -/
def dot (a b : V3) : XQ := a.x * b.x + a.y * b.y + a.z * b.z

/-- `Vec3::component_mul`. -/
def compMul (a b : V3) : V3 := ⟨a.x * b.x, a.y * b.y, a.z * b.z⟩

/-- `Vec3::magnitude` = `sqrt(self.dot(self))`. -/
def magnitudeWith (s : ℚ → ℚ) (v : V3) : XQ := XQ.sqrtWith s (dot v v)

/-- `Vec3::normalize` = `self / self.magnitude()`, componentwise. -/
def normalizeWith (s : ℚ → ℚ) (v : V3) : V3 :=
  let m := magnitudeWith s v
  ⟨v.x / m, v.y / m, v.z / m⟩

/-- `Vec3::zeros`. -/
def zeros : V3 := ⟨XQ.fin 0, XQ.fin 0, XQ.fin 0⟩

end V3

instance : Add V3 := ⟨V3.add⟩
instance : Sub V3 := ⟨V3.sub⟩

/-- Modelled from the spec: `color.rs` is referenced by `main.rs` but is not
under `src/`.  Per spec sections 2 and 3, `Color` is an 8-bit-per-channel RGB
value; channels are modelled as `ℕ` (every value the code stores comes from a
saturating `as u8` cast or a `u8` literal, hence lies in `[0,255]`).  The
shading code in `main.rs` does all channel arithmetic inline on `f32`/`u32`
casts, so no `Color` combinators are needed beyond the constructor. -/
structure Color where
  r : ℕ
  g : ℕ
  b : ℕ
deriving DecidableEq

/-- `Color::new`. -/
def Color.new (r g b : ℕ) : Color := ⟨r, g, b⟩

/-- `texture.rs`: width, height and a flattened row-major pixel array. -/
structure Texture where
  width : ℕ
  height : ℕ
  data : List Color
deriving DecidableEq

/-- `material.rs`: the albedo array `[f32; 4]` is flattened into the four
fields `albedo0 .. albedo3` (= `albedo[0] .. albedo[3]`). -/
structure Material where
  diffuse : Color
  specular : XQ
  albedo0 : XQ
  albedo1 : XQ
  albedo2 : XQ
  albedo3 : XQ
  refractive_index : XQ
  has_texture : Bool
  texture : Option Texture
deriving DecidableEq

/-- `Material::black`. -/
def Material.black : Material :=
  ⟨Color.new 0 0 0, XQ.fin 0, XQ.fin 0, XQ.fin 0, XQ.fin 0, XQ.fin 0, XQ.fin 1,
   false, none⟩

/-- `Material::get_diffuse_color`.  The Rust body indexes
`texture.data[tex_y * width + tex_x]` with
`tex_x = (u * width as f32) as usize % width` and
`tex_y = ((1.0 - v) * height as f32) as usize % height`; a `% 0` or an
out-of-bounds index panics, which the model renders as `none`. -/
def Material.get_diffuse_color (m : Material) (u v : XQ) : Option Color :=
  match m.texture with
  | some texture =>
      if texture.width = 0 then none
      else if texture.height = 0 then none
      else
        let tex_x := XQ.toUsize (u * natF texture.width) % texture.width
        let tex_y := XQ.toUsize ((XQ.fin 1 - v) * natF texture.height) % texture.height
        match texture.data.get? (tex_y * texture.width + tex_x) with
        | some pixel => some (Color.new pixel.r pixel.g pixel.b)
        | none => none
  | none => some m.diffuse

/-- `intersect.rs`: the `Intersect` record. -/
structure Intersect where
  point : V3
  normal : V3
  distance : XQ
  is_intersecting : Bool
  material : Material
  u : XQ
  v : XQ
deriving DecidableEq

/-- `Intersect::new` (sets `is_intersecting = true`). -/
def Intersect.new (point normal : V3) (distance : XQ) (material : Material)
    (u v : XQ) : Intersect :=
  ⟨point, normal, distance, true, material, u, v⟩

/-- `Intersect::empty`. -/
def Intersect.empty : Intersect :=
  ⟨V3.zeros, V3.zeros, XQ.fin 0, false, Material.black, XQ.fin 0, XQ.fin 0⟩

/-- `light.rs`: a point light. -/
structure Light where
  position : V3
  color : Color
  intensity : XQ

/-- `Light::new`. -/
def Light.new (position : V3) (color : Color) (intensity : XQ) : Light :=
  ⟨position, color, intensity⟩

/-- `sphere.rs`: a sphere primitive. -/
structure Sphere where
  center : V3
  radius : XQ
  material : Material

/-- `Sphere::get_uv` (spherical UV mapping). -/
def Sphere.get_uv (M : MathOps) (s : Sphere) (point : V3) : XQ × XQ :=
  let relative_point := V3.normalizeWith M.sqrt (point - s.center)
  let theta := xatan2 M relative_point.z relative_point.x
  let phi := xasin M relative_point.y
  let u := XQ.fin (1/2) + theta / (XQ.fin 2 * XQ.fin M.pi)
  let v := XQ.fin (1/2) - phi / XQ.fin M.pi
  (u, v)

/-- `Sphere::ray_intersect` (`sphere.rs`, lines 30-57): quadratic test,
strict discriminant, smaller root, strict positivity of `t`. -/
def Sphere.ray_intersect (M : MathOps) (s : Sphere)
    (ray_origin ray_direction : V3) : Intersect :=
  let oc := ray_origin - s.center
  let a := V3.dot ray_direction ray_direction
  let b := XQ.fin 2 * V3.dot oc ray_direction
  let c := V3.dot oc oc - s.radius * s.radius
  let discriminant := b * b - XQ.fin 4 * a * c
  if XQ.blt (XQ.fin 0) discriminant then
    let t := (-b - xsqrt M discriminant) / (XQ.fin 2 * a)
    if XQ.blt (XQ.fin 0) t then
      let point := ray_origin + V3.smul t ray_direction
      let normal := V3.normalizeWith M.sqrt (point - s.center)
      let distance := t
      let uv := Sphere.get_uv M s point
      Intersect.new point normal distance s.material uv.1 uv.2
    else Intersect.empty
  else Intersect.empty

/-- `cube.rs`: an axis-aligned cube with one material per face. -/
structure Cube where
  center : V3
  size : XQ
  materials : Fin 6 → Material

/-- `Cube::map_uv`. -/
def Cube.map_uv (u v : XQ) : XQ × XQ :=
  let u2 := (u + XQ.fin 1) * XQ.fin (1/2)
  let v2 := (v + XQ.fin 1) * XQ.fin (1/2)
  (XQ.fract u2, XQ.fract v2)

/-- `Cube::get_uv_for_face`.  The Rust `usize` index always lies in `0..6`
at the call site, so it is modelled as `Fin 6` (the Rust `_ => (0.0, 0.0)`
arm is unreachable). -/
def Cube.get_uv_for_face (face_index : Fin 6) (local_pos : V3) : XQ × XQ :=
  match face_index with
  | 4 => Cube.map_uv local_pos.x (-local_pos.y)
  | 5 => Cube.map_uv (-local_pos.x) (-local_pos.y)
  | 0 => Cube.map_uv local_pos.z (-local_pos.y)
  | 1 => Cube.map_uv (-local_pos.z) (-local_pos.y)
  | 2 => Cube.map_uv local_pos.x local_pos.z
  | 3 => Cube.map_uv local_pos.x (-local_pos.z)

/-- The `min` corner of the cube (`cube.rs` line 44). -/
def Cube.minCorner (c : Cube) : V3 :=
  let mitad := c.size / XQ.fin 2
  c.center - ⟨mitad, mitad, mitad⟩

/-- The `max` corner of the cube (`cube.rs` line 45). -/
def Cube.maxCorner (c : Cube) : V3 :=
  let mitad := c.size / XQ.fin 2
  c.center + ⟨mitad, mitad, mitad⟩

/-- The per-axis face-proximity test of the normal loop (`cube.rs` lines
65 and 74): `(punto[i] - bound[i]).abs() < 1e-4`. -/
def nearBound (p bound : XQ) : Bool :=
  XQ.blt (XQ.fabs (p - bound)) (XQ.fin (1/10000))

/-- `Cube::ray_intersect` (`cube.rs`, lines 42-97): slab test using inverse
direction components (whence the IEEE infinity/NaN semantics of `XQ`), then
the face/normal loop over the axes `x`, `y`, `z` in order.  Each axis writes
its own normal component; `face_index` keeps the value written by the last
axis that fired (last-axis-wins, as in the source). -/
def Cube.ray_intersect (cube : Cube) (ray_origin ray_direction : V3) : Intersect :=
  let mn := cube.minCorner
  let mx := cube.maxCorner
  let inv_dir : V3 := ⟨XQ.fin 1 / ray_direction.x, XQ.fin 1 / ray_direction.y,
                       XQ.fin 1 / ray_direction.z⟩
  let t_min := V3.compMul (mn - ray_origin) inv_dir
  let t_max := V3.compMul (mx - ray_origin) inv_dir
  let t1 := XQ.fmax (XQ.fmax (XQ.fmin t_min.x t_max.x) (XQ.fmin t_min.y t_max.y))
              (XQ.fmin t_min.z t_max.z)
  let t2 := XQ.fmin (XQ.fmin (XQ.fmax t_min.x t_max.x) (XQ.fmax t_min.y t_max.y))
              (XQ.fmax t_min.z t_max.z)
  if XQ.blt t2 t1 || XQ.blt t2 (XQ.fin 0) then Intersect.empty
  else
    let t_hit := if XQ.blt t1 (XQ.fin 0) then t2 else t1
    let punto_encuentro := ray_origin + V3.smul t_hit ray_direction
    let nX : XQ := if nearBound punto_encuentro.x mn.x then XQ.fin (-1)
                   else if nearBound punto_encuentro.x mx.x then XQ.fin 1
                   else XQ.fin 0
    let f1 : Fin 6 := if nearBound punto_encuentro.x mn.x then 0
                      else if nearBound punto_encuentro.x mx.x then 1
                      else 0
    let nY : XQ := if nearBound punto_encuentro.y mn.y then XQ.fin (-1)
                   else if nearBound punto_encuentro.y mx.y then XQ.fin 1
                   else XQ.fin 0
    let f2 : Fin 6 := if nearBound punto_encuentro.y mn.y then 3
                      else if nearBound punto_encuentro.y mx.y then 2
                      else f1
    let nZ : XQ := if nearBound punto_encuentro.z mn.z then XQ.fin (-1)
                   else if nearBound punto_encuentro.z mx.z then XQ.fin 1
                   else XQ.fin 0
    let f3 : Fin 6 := if nearBound punto_encuentro.z mn.z then 5
                      else if nearBound punto_encuentro.z mx.z then 4
                      else f2
    let normal : V3 := ⟨nX, nY, nZ⟩
    let face_index := f3
    let local_pos := punto_encuentro - cube.center
    let uv := Cube.get_uv_for_face face_index local_pos
    Intersect.new punto_encuentro normal t_hit (cube.materials face_index) uv.1 uv.2

/-- The quadratic discriminant computed by `Sphere::ray_intersect`:
`b*b - 4*a*c` with `a = dir.dir`, `b = 2*(oc.dir)`, `c = oc.oc - r*r`. -/
def sphereDisc (s : Sphere) (ray_origin ray_direction : V3) : XQ :=
  let oc := ray_origin - s.center
  let a := V3.dot ray_direction ray_direction
  let b := XQ.fin 2 * V3.dot oc ray_direction
  let c := V3.dot oc oc - s.radius * s.radius
  b * b - XQ.fin 4 * a * c

/-- The smaller quadratic root computed by `Sphere::ray_intersect`:
`(-b - sqrt(disc)) / (2*a)`. -/
def sphereT (M : MathOps) (s : Sphere) (ray_origin ray_direction : V3) : XQ :=
  let oc := ray_origin - s.center
  let a := V3.dot ray_direction ray_direction
  let b := XQ.fin 2 * V3.dot oc ray_direction
  (-b - xsqrt M (sphereDisc s ray_origin ray_direction)) / (XQ.fin 2 * a)

/-- The slab entry parameter `t1` computed by `Cube::ray_intersect`. -/
def cubeT1 (cube : Cube) (ray_origin ray_direction : V3) : XQ :=
  let mn := cube.minCorner
  let mx := cube.maxCorner
  let inv_dir : V3 := ⟨XQ.fin 1 / ray_direction.x, XQ.fin 1 / ray_direction.y,
                       XQ.fin 1 / ray_direction.z⟩
  let t_min := V3.compMul (mn - ray_origin) inv_dir
  let t_max := V3.compMul (mx - ray_origin) inv_dir
  XQ.fmax (XQ.fmax (XQ.fmin t_min.x t_max.x) (XQ.fmin t_min.y t_max.y))
    (XQ.fmin t_min.z t_max.z)

/-- The slab exit parameter `t2` computed by `Cube::ray_intersect`. -/
def cubeT2 (cube : Cube) (ray_origin ray_direction : V3) : XQ :=
  let mn := cube.minCorner
  let mx := cube.maxCorner
  let inv_dir : V3 := ⟨XQ.fin 1 / ray_direction.x, XQ.fin 1 / ray_direction.y,
                       XQ.fin 1 / ray_direction.z⟩
  let t_min := V3.compMul (mn - ray_origin) inv_dir
  let t_max := V3.compMul (mx - ray_origin) inv_dir
  XQ.fmin (XQ.fmin (XQ.fmax t_min.x t_max.x) (XQ.fmax t_min.y t_max.y))
    (XQ.fmax t_min.z t_max.z)

/-- Whether a coordinate of a cube hit point is within the `1e-4` tolerance
of either face bound on one axis (i.e. the normal loop fires on this axis). -/
def nearAxisPair (p lo hi : XQ) : Bool := nearBound p lo || nearBound p hi

/-- The scene primitives (`Box<dyn RayIntersect>`): a closed sum of the two
implementors. -/
inductive Object where
  | sphere (s : Sphere)
  | cube (c : Cube)

/-- Dynamic dispatch of `RayIntersect::ray_intersect`. -/
def Object.ray_intersect (M : MathOps) (o : Object) (ray_origin ray_direction : V3) :
    Intersect :=
  match o with
  | .sphere s => Sphere.ray_intersect M s ray_origin ray_direction
  | .cube c => Cube.ray_intersect c ray_origin ray_direction

/-- `reflect` (`main.rs`, lines 39-41):
`incident - 2.0 * incident.dot(normal) * normal`. -/
def reflect (incident normal : V3) : V3 :=
  incident - V3.smul (XQ.fin 2 * V3.dot incident normal) normal

/-- `refract` (`main.rs`, lines 43-68): Snell refraction with the
entering/exiting case split; total internal reflection falls back to
`reflect`. -/
def refract (M : MathOps) (incident normal : V3) (eta_t : XQ) : V3 :=
  let cosi := -(XQ.fmin (XQ.fmax (V3.dot incident normal) (XQ.fin (-1))) (XQ.fin 1))
  let nce : XQ × XQ × V3 :=
    if XQ.blt cosi (XQ.fin 0) then (-cosi, XQ.fin 1 / eta_t, V3.neg normal)
    else (cosi, eta_t, normal)
  let n_cosi := nce.1
  let eta := nce.2.1
  let n_normal := nce.2.2
  let k := XQ.fin 1 - eta * eta * (XQ.fin 1 - n_cosi * n_cosi)
  if XQ.blt k (XQ.fin 0) then reflect incident n_normal
  else V3.smul eta incident + V3.smul (eta * n_cosi - xsqrt M k) n_normal

/-- The loop body of `cast_shadow` (`main.rs`, lines 84-97): scan the objects
in order; at the first object whose shadow-ray intersection lies strictly
closer than the light, return the soft shadow factor and stop. -/
def castShadowLoop (M : MathOps) (inter : Intersect) (light : Light)
    (shadow_ray_origin light_dir : V3) : List Object → XQ
  | [] => XQ.fin 0
  | object :: rest =>
    let shadow_intersect := Object.ray_intersect M object shadow_ray_origin light_dir
    if shadow_intersect.is_intersecting then
      let distance_to_object := V3.magnitudeWith M.sqrt (shadow_intersect.point - inter.point)
      let distance_to_light := V3.magnitudeWith M.sqrt (light.position - inter.point)
      if XQ.blt distance_to_object distance_to_light then
        XQ.fin 1 - XQ.fmin (distance_to_object / distance_to_light) (XQ.fin 1)
      else castShadowLoop M inter light shadow_ray_origin light_dir rest
    else castShadowLoop M inter light shadow_ray_origin light_dir rest

/-- `cast_shadow` (`main.rs`, lines 71-100). -/
def cast_shadow (M : MathOps) (inter : Intersect) (light : Light)
    (objects : List Object) : XQ :=
  let light_dir := V3.normalizeWith M.sqrt (light.position - inter.point)
  let shadow_ray_origin := inter.point + V3.smul (XQ.fin (1/1000)) inter.normal
  castShadowLoop M inter light shadow_ray_origin light_dir objects

/-- The closest-intersection scan of `cast_ray` (`main.rs`, lines 114-124):
fold over the objects keeping the hit with strictly smallest distance, the
running distance starting at `f32::INFINITY`. -/
def closestHit (M : MathOps) (objects : List Object) (ray_origin ray_direction : V3) :
    Intersect :=
  (objects.foldl
    (fun acc object =>
      let intersection := Object.ray_intersect M object ray_origin ray_direction
      if intersection.is_intersecting && XQ.blt intersection.distance acc.2
      then (intersection, intersection.distance)
      else acc)
    (Intersect.empty, XQ.pinf)).1

/-- The global ambient contribution of `cast_ray` (`main.rs`, lines 135-141):
`diffuse_color * 0.3`, per channel, clamped at 255 before the `as u8` cast. -/
def ambient_term (diffuse_color : Color) : Color :=
  Color.new
    (XQ.toU8 (XQ.fmin (natF diffuse_color.r * XQ.fin (3/10)) (XQ.fin 255)))
    (XQ.toU8 (XQ.fmin (natF diffuse_color.g * XQ.fin (3/10)) (XQ.fin 255)))
    (XQ.toU8 (XQ.fmin (natF diffuse_color.b * XQ.fin (3/10)) (XQ.fin 255)))

/-- The Lambertian diffuse contribution of `cast_ray` (`main.rs`, lines
143-152).  Note that the factor is the raw `lights.intensity`: the shadow
factor is not applied here in the source. -/
def diffuse_term (M : MathOps) (lights : Light) (inter : Intersect)
    (diffuse_color : Color) : Color :=
  let light_dir := V3.normalizeWith M.sqrt (lights.position - inter.point)
  let diffuse_intensity := XQ.fmin (XQ.fmax (V3.dot inter.normal light_dir) (XQ.fin 0)) (XQ.fin 1)
  Color.new
    (XQ.toU8 (XQ.fmin (natF diffuse_color.r * inter.material.albedo0 * diffuse_intensity * lights.intensity) (XQ.fin 255)))
    (XQ.toU8 (XQ.fmin (natF diffuse_color.g * inter.material.albedo0 * diffuse_intensity * lights.intensity) (XQ.fin 255)))
    (XQ.toU8 (XQ.fmin (natF diffuse_color.b * inter.material.albedo0 * diffuse_intensity * lights.intensity) (XQ.fin 255)))

/-- The Phong specular contribution of `cast_ray` (`main.rs`, lines 154-169):
this is the only place where the shadow-attenuated intensity
`lights.intensity * (1 - shadow)` is used. -/
def specular_term (M : MathOps) (ray_origin ray_direction : V3)
    (objects : List Object) (lights : Light) (inter : Intersect) : Color :=
  let shadow_intensity := cast_shadow M inter lights objects
  let light_intensity := lights.intensity * (XQ.fin 1 - shadow_intensity)
  let view_dir := V3.normalizeWith M.sqrt (ray_origin - inter.point)
  let reflect_dir := V3.normalizeWith M.sqrt (reflect (V3.neg ray_direction) inter.normal)
  let specular_intensity := xpow M (XQ.fmax (V3.dot view_dir reflect_dir) (XQ.fin 0)) inter.material.specular
  Color.new
    (XQ.toU8 (XQ.fmin (natF lights.color.r * inter.material.albedo1 * specular_intensity * light_intensity) (XQ.fin 255)))
    (XQ.toU8 (XQ.fmin (natF lights.color.g * inter.material.albedo1 * specular_intensity * light_intensity) (XQ.fin 255)))
    (XQ.toU8 (XQ.fmin (natF lights.color.b * inter.material.albedo1 * specular_intensity * light_intensity) (XQ.fin 255)))

/-- The local color of `cast_ray` (`main.rs`, lines 171-176): per-channel
`u32` sum of ambient, diffuse and specular, clamped at 255. -/
def local_lit (M : MathOps) (ray_origin ray_direction : V3) (objects : List Object)
    (lights : Light) (inter : Intersect) (diffuse_color : Color) : Color :=
  let ambient_light := ambient_term diffuse_color
  let diffuse := diffuse_term M lights inter diffuse_color
  let specular := specular_term M ray_origin ray_direction objects lights inter
  Color.new
    (min (ambient_light.r + diffuse.r + specular.r) 255)
    (min (ambient_light.g + diffuse.g + specular.g) 255)
    (min (ambient_light.b + diffuse.b + specular.b) 255)

/-- The final blend of `cast_ray` (`main.rs`, lines 205-210):
`local*(1 - reflectivity - transparency) + reflect*reflectivity +
refract*transparency`, per channel, clamped at 255 before `as u8`. -/
def blend_colors (final_color reflect_color refract_color : Color)
    (reflectivity transparency : XQ) : Color :=
  Color.new
    (XQ.toU8 (XQ.fmin ((natF final_color.r * ((XQ.fin 1 - reflectivity) - transparency)) + (natF reflect_color.r * reflectivity) + (natF refract_color.r * transparency)) (XQ.fin 255)))
    (XQ.toU8 (XQ.fmin ((natF final_color.g * ((XQ.fin 1 - reflectivity) - transparency)) + (natF reflect_color.g * reflectivity) + (natF refract_color.g * transparency)) (XQ.fin 255)))
    (XQ.toU8 (XQ.fmin ((natF final_color.b * ((XQ.fin 1 - reflectivity) - transparency)) + (natF reflect_color.b * reflectivity) + (natF refract_color.b * transparency)) (XQ.fin 255)))

/-- `cast_ray`, written as structural recursion on the remaining recursion
budget `gas`.  The source guard is `if depth > 1 { return background }` and
every recursive call passes `depth + 1`; with `gas = 2 - depth` (truncated
subtraction) the guard `depth > 1` is exactly `gas = 0`, and `depth + 1`
is exactly `gas - 1`, so `castRayGo (2 - depth) = cast_ray(depth)`.
The body (`main.rs`, lines 114-210) otherwise follows the source line by
line; texture-lookup panics surface as `none`. -/
def castRayGo (M : MathOps) (objects : List Object) (lights : Light) :
    ℕ → V3 → V3 → Option Color
  | 0, _, _ => some (Color.new 4 12 36)
  | gas + 1, ray_origin, ray_direction =>
    let closest_intersection := closestHit M objects ray_origin ray_direction
    if closest_intersection.is_intersecting = false then some (Color.new 4 12 36)
    else
      match closest_intersection.material.get_diffuse_color
              closest_intersection.u closest_intersection.v with
      | none => none
      | some diffuse_color =>
        let final_color := local_lit M ray_origin ray_direction objects lights
                             closest_intersection diffuse_color
        let reflectivity := closest_intersection.material.albedo2
        let reflect_dir := V3.normalizeWith M.sqrt
                             (reflect (V3.neg ray_direction) closest_intersection.normal)
        let reflectRes : Option Color :=
          if XQ.blt (XQ.fin 0) reflectivity then
            let reflect_origin := closest_intersection.point +
              V3.smul (XQ.fin (1/1000)) closest_intersection.normal
            match castRayGo M objects lights gas reflect_origin reflect_dir with
            | none => none
            | some rc => some (Color.new
                (XQ.toU8 (XQ.fmin (natF rc.r * reflectivity) (XQ.fin 255)))
                (XQ.toU8 (XQ.fmin (natF rc.g * reflectivity) (XQ.fin 255)))
                (XQ.toU8 (XQ.fmin (natF rc.b * reflectivity) (XQ.fin 255))))
          else some (Color.new 0 0 0)
        match reflectRes with
        | none => none
        | some reflect_color =>
          let transparency := closest_intersection.material.albedo3
          let refractRes : Option Color :=
            if XQ.blt (XQ.fin 0) transparency then
              let refract_dir := V3.normalizeWith M.sqrt
                (refract M ray_direction closest_intersection.normal
                  closest_intersection.material.refractive_index)
              let refract_origin := closest_intersection.point +
                V3.smul (XQ.fin (1/1000)) closest_intersection.normal
              match castRayGo M objects lights gas refract_origin refract_dir with
              | none => none
              | some rc => some (Color.new
                  (XQ.toU8 (XQ.fmin (natF rc.r * transparency) (XQ.fin 255)))
                  (XQ.toU8 (XQ.fmin (natF rc.g * transparency) (XQ.fin 255)))
                  (XQ.toU8 (XQ.fmin (natF rc.b * transparency) (XQ.fin 255))))
            else some (Color.new 0 0 0)
          match refractRes with
          | none => none
          | some refract_color =>
            some (blend_colors final_color reflect_color refract_color
                    reflectivity transparency)

/-- `cast_ray` (`main.rs`, lines 103-211), with the recursion depth counted
as in the source (`depth > 1` returns the background, recursive calls use
`depth + 1`). -/
def cast_ray (M : MathOps) (ray_origin ray_direction : V3)
    (objects : List Object) (lights : Light) (depth : ℕ) : Option Color :=
  castRayGo M objects lights (2 - depth) ray_origin ray_direction

/-- The reflection branch of `cast_ray` (`main.rs`, lines 178-189), as a
standalone function of the recursion budget: black when
`reflectivity <= 0`, otherwise the recursive reflected color scaled by
`reflectivity`.  `castRayGo (gas+1)` computes exactly this expression with
budget `gas` (see `castRayGo_succ_eq`). -/
def reflect_part (M : MathOps) (objects : List Object) (lights : Light)
    (gas : ℕ) (ray_direction : V3) (inter : Intersect) : Option Color :=
  if XQ.blt (XQ.fin 0) inter.material.albedo2 then
    let reflect_dir := V3.normalizeWith M.sqrt (reflect (V3.neg ray_direction) inter.normal)
    let reflect_origin := inter.point + V3.smul (XQ.fin (1/1000)) inter.normal
    match castRayGo M objects lights gas reflect_origin reflect_dir with
    | none => none
    | some rc => some (Color.new
        (XQ.toU8 (XQ.fmin (natF rc.r * inter.material.albedo2) (XQ.fin 255)))
        (XQ.toU8 (XQ.fmin (natF rc.g * inter.material.albedo2) (XQ.fin 255)))
        (XQ.toU8 (XQ.fmin (natF rc.b * inter.material.albedo2) (XQ.fin 255))))
  else some (Color.new 0 0 0)

/-- The refraction branch of `cast_ray` (`main.rs`, lines 191-203), as a
standalone function of the recursion budget. -/
def refract_part (M : MathOps) (objects : List Object) (lights : Light)
    (gas : ℕ) (ray_direction : V3) (inter : Intersect) : Option Color :=
  if XQ.blt (XQ.fin 0) inter.material.albedo3 then
    let refract_dir := V3.normalizeWith M.sqrt
      (refract M ray_direction inter.normal inter.material.refractive_index)
    let refract_origin := inter.point + V3.smul (XQ.fin (1/1000)) inter.normal
    match castRayGo M objects lights gas refract_origin refract_dir with
    | none => none
    | some rc => some (Color.new
        (XQ.toU8 (XQ.fmin (natF rc.r * inter.material.albedo3) (XQ.fin 255)))
        (XQ.toU8 (XQ.fmin (natF rc.g * inter.material.albedo3) (XQ.fin 255)))
        (XQ.toU8 (XQ.fmin (natF rc.b * inter.material.albedo3) (XQ.fin 255))))
  else some (Color.new 0 0 0)

/-- `camera.rs`: eye / look-at center / up. -/
structure Camera where
  eye : V3
  center : V3
  up : V3

/-- `Camera::orbit` (`camera.rs`, lines 48-73): decompose `eye - center`
into spherical coordinates, add the deltas (yaw modulo `2*PI`, pitch clamped
to `(-PI/2 + 0.1, PI/2 - 0.1)`), rebuild `eye`; `center` is not touched. -/
def Camera.orbit (M : MathOps) (cam : Camera) (delta_yaw delta_pitch : XQ) : Camera :=
  let radius_vector := cam.eye - cam.center
  let radius := V3.magnitudeWith M.sqrt radius_vector
  let current_yaw := xatan2 M radius_vector.z radius_vector.x
  let radius_xz := XQ.sqrtWith M.sqrt
    (radius_vector.x * radius_vector.x + radius_vector.z * radius_vector.z)
  let current_pitch := xatan2 M (-radius_vector.y) radius_xz
  let new_yaw := XQ.frem (current_yaw + delta_yaw) (XQ.fin 2 * XQ.fin M.pi)
  let new_pitch := XQ.fclamp (current_pitch + delta_pitch)
    (XQ.fin (-M.pi / 2 + 1/10)) (XQ.fin (M.pi / 2 - 1/10))
  let new_eye := cam.center +
    (⟨radius * xcos M new_yaw * xcos M new_pitch,
      -radius * xsin M new_pitch,
      radius * xsin M new_yaw * xcos M new_pitch⟩ : V3)
  { cam with eye := new_eye }

/-- The radius vector `eye - center` used by `Camera.orbit`. -/
def orbitRadiusVector (cam : Camera) : V3 := cam.eye - cam.center

/-- The spherical radius computed by `Camera.orbit`. -/
def orbitRadius (M : MathOps) (cam : Camera) : XQ :=
  V3.magnitudeWith M.sqrt (orbitRadiusVector cam)

/-- The current yaw `atan2(rv.z, rv.x)` computed by `Camera.orbit`. -/
def orbitYaw (M : MathOps) (cam : Camera) : XQ :=
  xatan2 M (orbitRadiusVector cam).z (orbitRadiusVector cam).x

/-- The current pitch `atan2(-rv.y, sqrt(rv.x^2 + rv.z^2))` computed by
`Camera.orbit`. -/
def orbitPitch (M : MathOps) (cam : Camera) : XQ :=
  xatan2 M (-(orbitRadiusVector cam).y)
    (XQ.sqrtWith M.sqrt ((orbitRadiusVector cam).x * (orbitRadiusVector cam).x +
      (orbitRadiusVector cam).z * (orbitRadiusVector cam).z))

/-- Modelled from the spec (wording of claim C1): the claimed diffuse term
`diffuse_k * diffuse_color * max(0, normal.lightDir) *
(light.intensity * (1 - shadow))`, with `shadow` computed by `cast_shadow`,
per channel through the same clamp-and-cast as the code.  This is the
spec-side formula that claim C1 asserts the code computes. -/
def claimC1_diffuse (M : MathOps) (lights : Light) (objects : List Object)
    (inter : Intersect) (diffuse_color : Color) : Color :=
  let light_dir := V3.normalizeWith M.sqrt (lights.position - inter.point)
  let lambert := XQ.fmax (V3.dot inter.normal light_dir) (XQ.fin 0)
  let shadow := cast_shadow M inter lights objects
  let scaled := lights.intensity * (XQ.fin 1 - shadow)
  Color.new
    (XQ.toU8 (XQ.fmin (natF diffuse_color.r * inter.material.albedo0 * lambert * scaled) (XQ.fin 255)))
    (XQ.toU8 (XQ.fmin (natF diffuse_color.g * inter.material.albedo0 * lambert * scaled) (XQ.fin 255)))
    (XQ.toU8 (XQ.fmin (natF diffuse_color.b * inter.material.albedo0 * lambert * scaled) (XQ.fin 255)))

/-- Modelled from the spec (wording of claim C7): the claimed contribution of
an "ambient" light (intensity at most 0.3): exactly `diffuse_color *
intensity`, per channel, with no shadow and no specular computation. -/
def claimC7_contribution (diffuse_color : Color) (intensity : XQ) : Color :=
  Color.new
    (XQ.toU8 (natF diffuse_color.r * intensity))
    (XQ.toU8 (natF diffuse_color.g * intensity))
    (XQ.toU8 (natF diffuse_color.b * intensity))

/-- A texture is well formed when its pixel array really is a width-by-height
row-major grid (this is exactly what `load_texture` in `main.rs` produces;
spec section 3).  A material with no texture is always well formed. -/
def wfMaterial (m : Material) : Bool :=
  match m.texture with
  | none => true
  | some t => decide (0 < t.width) && decide (0 < t.height) &&
      decide (t.data.length = t.width * t.height)

/-- All materials reachable from an object are well formed. -/
def wfObject : Object → Bool
  | .sphere s => wfMaterial s.material
  | .cube c => decide (∀ i : Fin 6, wfMaterial (c.materials i) = true)

/-- All materials in the scene are well formed. -/
def wfScene (objects : List Object) : Bool := objects.all wfObject

/-- The occlusion test performed, object by object, inside the
`cast_shadow` loop: the shadow-ray intersection exists and lies strictly
closer than the light. -/
def occludesShadowRay (M : MathOps) (inter : Intersect) (light : Light)
    (object : Object) : Bool :=
  let light_dir := V3.normalizeWith M.sqrt (light.position - inter.point)
  let shadow_ray_origin := inter.point + V3.smul (XQ.fin (1/1000)) inter.normal
  let si := Object.ray_intersect M object shadow_ray_origin light_dir
  si.is_intersecting &&
    XQ.blt (V3.magnitudeWith M.sqrt (si.point - inter.point))
           (V3.magnitudeWith M.sqrt (light.position - inter.point))

/-- The shadow factor `1 - min(1, distanceToOccluder/distanceToLight)`
contributed by one occluding object. -/
def shadowValue (M : MathOps) (inter : Intersect) (light : Light)
    (object : Object) : XQ :=
  let light_dir := V3.normalizeWith M.sqrt (light.position - inter.point)
  let shadow_ray_origin := inter.point + V3.smul (XQ.fin (1/1000)) inter.normal
  let si := Object.ray_intersect M object shadow_ray_origin light_dir
  let distance_to_object := V3.magnitudeWith M.sqrt (si.point - inter.point)
  let distance_to_light := V3.magnitudeWith M.sqrt (light.position - inter.point)
  XQ.fin 1 - XQ.fmin (distance_to_object / distance_to_light) (XQ.fin 1)

/-- A concrete square-root table: the only values reached by the concrete
scenes below (all arguments are perfect squares there). -/
def sqrtTab0 : ℚ → ℚ := fun q =>
  if q = 4 then 2 else if q = 16 then 4 else if q = 1 then 1 else 0

/-- A concrete `MathOps` instance for the single-sphere scene. -/
def M0 : MathOps :=
  ⟨sqrtTab0, fun _ _ => 0, fun _ _ => 0, fun _ => 0, fun _ => 0, fun _ => 0, 3⟩

/-- A plain red, purely diffuse, untextured material. -/
def mat0 : Material :=
  ⟨Color.new 200 0 0, XQ.fin 50, XQ.fin 1, XQ.fin 0, XQ.fin 0, XQ.fin 0,
   XQ.fin (3/2), false, none⟩

/-- A unit sphere at the origin. -/
def sphere0 : Sphere := ⟨V3.zeros, XQ.fin 1, mat0⟩

/-- A one-sphere scene. -/
def scene0 : List Object := [Object.sphere sphere0]

/-- A light straight above the scene with intensity 0.2 (at most the 0.3
ambient threshold named by the spec). -/
def light0 : Light := ⟨⟨XQ.fin 0, XQ.fin 5, XQ.fin 0⟩, Color.new 255 255 255, XQ.fin (1/5)⟩

/-- Ray origin straight above the sphere. -/
def origin0 : V3 := ⟨XQ.fin 0, XQ.fin 3, XQ.fin 0⟩

/-- Ray direction straight down. -/
def dir0 : V3 := ⟨XQ.fin 0, XQ.fin (-1), XQ.fin 0⟩

/-- Square-root table for the shadowed-hit scenario. -/
def sqrtTab1 : ℚ → ℚ := fun q =>
  if q = 25 then 5 else if q = 9/4 then 3/2 else if q = 1 then 1
  else if q = 1/4 then 1/2 else 0

/-- A concrete `MathOps` instance for the shadowed-hit scenario. -/
def M1 : MathOps :=
  ⟨sqrtTab1, fun _ _ => 0, fun _ _ => 0, fun _ => 0, fun _ => 0, fun _ => 0, 3⟩

/-- A grey, purely diffuse material (`albedo[0] = 1`). -/
def mat1 : Material :=
  ⟨Color.new 100 100 100, XQ.fin 50, XQ.fin 1, XQ.fin 0, XQ.fin 0, XQ.fin 0,
   XQ.fin (3/2), false, none⟩

/-- A hit at the origin facing up. -/
def inter1 : Intersect :=
  ⟨V3.zeros, ⟨XQ.fin 0, XQ.fin 1, XQ.fin 0⟩, XQ.fin 1, true, mat1, XQ.fin 0, XQ.fin 0⟩

/-- A light straight above, intensity 0.8. -/
def light1 : Light := ⟨⟨XQ.fin 0, XQ.fin 5, XQ.fin 0⟩, Color.new 255 255 255, XQ.fin (4/5)⟩

/-- An occluding small sphere strictly between `inter1` and `light1`. -/
def occluder1 : Sphere := ⟨⟨XQ.fin 0, XQ.fin 2, XQ.fin 0⟩, XQ.fin (1/2), mat1⟩

/-- Scene containing only the occluder. -/
def scene1 : List Object := [Object.sphere occluder1]

/-- The diffuse color sampled at the hit of the shadowed scenario. -/
def dc1 : Color := Color.new 100 100 100

/-- A cube of size 2 at the origin. -/
def cube0 : Cube := ⟨V3.zeros, XQ.fin 2, fun _ => mat0⟩

/-- Ray origin on the positive x axis. -/
def origin5 : V3 := ⟨XQ.fin 5, XQ.fin 0, XQ.fin 0⟩

/-- Ray direction toward the negative x axis. -/
def dir5 : V3 := ⟨XQ.fin (-1), XQ.fin 0, XQ.fin 0⟩

/-- Ray origin on the x = y diagonal. -/
def originC8 : V3 := ⟨XQ.fin 5, XQ.fin 5, XQ.fin 0⟩

/-- Ray direction down the x = y diagonal: this ray strikes the cube exactly
on the edge shared by the `+X` and `+Y` faces. -/
def dirC8 : V3 := ⟨XQ.fin (-1), XQ.fin (-1), XQ.fin 0⟩

/-- Math table for the camera-orbit scenario: exact values of `atan2`,
`sin`, `cos`, `sqrt` at the handful of points the two orbit calls reach
(the yaw angle `1` has cosine `3/5` and sine `4/5`, a 3-4-5 triangle). -/
def M9 : MathOps :=
  ⟨fun q => if q = 25 then 5 else 0,
   fun _ _ => 0,
   fun y x => if y = 0 then 0 else if y = 4 ∧ x = 3 then 1 else 0,
   fun _ => 0,
   fun q => if q = 1 then 4/5 else 0,
   fun q => if q = 1 then 3/5 else if q = 0 then 1 else 0,
   3⟩

/-- A camera on the positive x axis looking at the origin. -/
def cam9 : Camera :=
  ⟨⟨XQ.fin 5, XQ.fin 0, XQ.fin 0⟩, V3.zeros, ⟨XQ.fin 0, XQ.fin 1, XQ.fin 0⟩⟩

/-- The hit record produced by the ray `origin0 -> dir0` against `scene0`
(computed in `closestHit_scene0` below). -/
def hitRec0 : Intersect :=
  Intersect.new ⟨XQ.fin 0, XQ.fin 1, XQ.fin 0⟩ ⟨XQ.fin 0, XQ.fin 1, XQ.fin 0⟩
    (XQ.fin 2) mat0 (XQ.fin (1/2)) (XQ.fin (1/2))

namespace XQ

@[simp] theorem neg_fin (a : ℚ) : -(fin a) = fin (-a) := rfl

@[simp] theorem neg_pinf : -(pinf : XQ) = ninf := rfl

@[simp] theorem neg_ninf : -(ninf : XQ) = pinf := rfl

@[simp] theorem fin_add_fin (a b : ℚ) : fin a + fin b = fin (a + b) := rfl

@[simp] theorem fin_add_pinf (a : ℚ) : fin a + pinf = pinf := rfl

@[simp] theorem fin_add_ninf (a : ℚ) : fin a + ninf = ninf := rfl

@[simp] theorem pinf_add_fin (a : ℚ) : pinf + fin a = pinf := rfl

@[simp] theorem ninf_add_fin (a : ℚ) : ninf + fin a = ninf := rfl

@[simp] theorem fin_sub_fin (a b : ℚ) : fin a - fin b = fin (a - b) := by
  show sub (fin a) (fin b) = fin (a - b)
  simp [sub, neg, add, sub_eq_add_neg]

@[simp] theorem fin_sub_pinf (a : ℚ) : fin a - pinf = ninf := rfl

@[simp] theorem fin_sub_ninf (a : ℚ) : fin a - ninf = pinf := rfl

@[simp] theorem pinf_sub_fin (a : ℚ) : pinf - fin a = pinf := rfl

@[simp] theorem ninf_sub_fin (a : ℚ) : ninf - fin a = ninf := rfl

@[simp] theorem fin_mul_fin (a b : ℚ) : fin a * fin b = fin (a * b) := rfl

theorem fin_mul_pinf (a : ℚ) : fin a * pinf =
    (if 0 < a then pinf else if a < 0 then ninf else nan) := rfl

theorem fin_mul_ninf (a : ℚ) : fin a * ninf =
    (if 0 < a then ninf else if a < 0 then pinf else nan) := rfl

theorem pinf_mul_fin (b : ℚ) : pinf * fin b =
    (if 0 < b then pinf else if b < 0 then ninf else nan) := rfl

theorem ninf_mul_fin (b : ℚ) : ninf * fin b =
    (if 0 < b then ninf else if b < 0 then pinf else nan) := rfl

@[simp] theorem pinf_mul_pinf : (pinf : XQ) * pinf = pinf := rfl

@[simp] theorem ninf_mul_ninf : (ninf : XQ) * ninf = pinf := rfl

@[simp] theorem nan_mul (x : XQ) : nan * x = nan := by
  show mul nan x = nan
  cases x <;> rfl

@[simp] theorem mul_nan (x : XQ) : x * nan = nan := by
  show mul x nan = nan
  cases x <;> rfl

@[simp] theorem nan_add (x : XQ) : nan + x = nan := by
  show add nan x = nan
  cases x <;> rfl

@[simp] theorem add_nan (x : XQ) : x + nan = nan := by
  show add x nan = nan
  cases x <;> rfl

theorem fin_div_fin (a b : ℚ) : fin a / fin b =
    (if b = 0 then (if 0 < a then pinf else if a < 0 then ninf else nan)
     else fin (a / b)) := rfl

@[simp] theorem fin_div_fin_ne (a b : ℚ) (h : b ≠ 0) : fin a / fin b = fin (a / b) := by
  show div (fin a) (fin b) = fin (a / b)
  simp [div, h]

@[simp] theorem fin_div_pinf (a : ℚ) : fin a / pinf = fin 0 := rfl

@[simp] theorem fin_div_ninf (a : ℚ) : fin a / ninf = fin 0 := rfl

@[simp] theorem blt_fin_fin (a b : ℚ) : blt (fin a) (fin b) = decide (a < b) := rfl

@[simp] theorem blt_fin_pinf (a : ℚ) : blt (fin a) pinf = true := rfl

@[simp] theorem blt_pinf (x : XQ) : blt pinf x = false := by
  cases x <;> rfl

@[simp] theorem blt_ninf_fin (a : ℚ) : blt ninf (fin a) = true := rfl

@[simp] theorem blt_ninf_pinf : blt ninf pinf = true := rfl

@[simp] theorem blt_fin_ninf (a : ℚ) : blt (fin a) ninf = false := rfl

@[simp] theorem blt_nan (x : XQ) : blt nan x = false := by
  cases x <;> rfl

@[simp] theorem blt_to_nan (x : XQ) : blt x nan = false := by
  cases x <;> rfl

@[simp] theorem ble_fin_fin (a b : ℚ) : ble (fin a) (fin b) = decide (a ≤ b) := rfl

@[simp] theorem ble_fin_pinf (a : ℚ) : ble (fin a) pinf = true := rfl

@[simp] theorem fmin_fin_fin (a b : ℚ) :
    fmin (fin a) (fin b) = (if a < b then fin a else fin b) := by
  simp [fmin]

@[simp] theorem fmin_fin_pinf (a : ℚ) : fmin (fin a) pinf = fin a := rfl

@[simp] theorem fmin_pinf_fin (a : ℚ) : fmin pinf (fin a) = fin a := rfl

@[simp] theorem fmin_fin_ninf (a : ℚ) : fmin (fin a) ninf = ninf := rfl

@[simp] theorem fmin_ninf_fin (a : ℚ) : fmin ninf (fin a) = ninf := rfl

@[simp] theorem fmin_ninf_pinf : fmin ninf pinf = ninf := rfl

@[simp] theorem fmin_pinf_ninf : fmin pinf ninf = ninf := rfl

@[simp] theorem fmin_pinf_pinf : fmin pinf pinf = pinf := rfl

@[simp] theorem fmin_nan (x : XQ) : fmin nan x = x := by
  cases x <;> rfl

@[simp] theorem fmin_of_nan (x : XQ) : fmin x nan = x := by
  cases x <;> rfl

@[simp] theorem fmax_fin_fin (a b : ℚ) :
    fmax (fin a) (fin b) = (if b < a then fin a else fin b) := by
  simp [fmax]

@[simp] theorem fmax_fin_pinf (a : ℚ) : fmax (fin a) pinf = pinf := rfl

@[simp] theorem fmax_pinf_fin (a : ℚ) : fmax pinf (fin a) = pinf := rfl

@[simp] theorem fmax_fin_ninf (a : ℚ) : fmax (fin a) ninf = fin a := rfl

@[simp] theorem fmax_ninf_fin (a : ℚ) : fmax ninf (fin a) = fin a := rfl

@[simp] theorem fmax_ninf_pinf : fmax ninf pinf = pinf := rfl

@[simp] theorem fmax_pinf_ninf : fmax pinf ninf = pinf := rfl

@[simp] theorem fmax_nan (x : XQ) : fmax nan x = x := by
  cases x <;> rfl

@[simp] theorem fmax_of_nan (x : XQ) : fmax x nan = x := by
  cases x <;> rfl

@[simp] theorem fabs_fin (a : ℚ) : fabs (fin a) = fin |a| := rfl

@[simp] theorem sqrtWith_fin (s : ℚ → ℚ) (q : ℚ) :
    sqrtWith s (fin q) = (if q < 0 then nan else fin (s q)) := rfl

@[simp] theorem fract_fin (q : ℚ) : fract (fin q) = fin (q - ratTrunc q) := rfl

@[simp] theorem frem_fin_fin (a b : ℚ) (h : b ≠ 0) :
    frem (fin a) (fin b) = fin (a - b * ratTrunc (a / b)) := by
  simp [frem, h]

@[simp] theorem toU8_fin (q : ℚ) :
    toU8 (fin q) = (if q ≤ 0 then 0 else if 255 ≤ q then 255 else Int.toNat ⌊q⌋) := rfl

end XQ

@[simp] theorem natF_eval (n : ℕ) : natF n = XQ.fin (n : ℚ) := rfl

@[simp] theorem xsqrt_eval (M : MathOps) (x : XQ) : xsqrt M x = XQ.sqrtWith M.sqrt x := rfl

@[simp] theorem xpow_fin (M : MathOps) (b e : ℚ) :
    xpow M (XQ.fin b) (XQ.fin e) = XQ.fin (M.powf b e) := rfl

@[simp] theorem xatan2_fin (M : MathOps) (y x : ℚ) :
    xatan2 M (XQ.fin y) (XQ.fin x) = XQ.fin (M.atan2 y x) := rfl

@[simp] theorem xasin_fin (M : MathOps) (q : ℚ) :
    xasin M (XQ.fin q) = XQ.fin (M.asin q) := rfl

@[simp] theorem xsin_fin (M : MathOps) (q : ℚ) :
    xsin M (XQ.fin q) = XQ.fin (M.sin q) := rfl

@[simp] theorem xcos_fin (M : MathOps) (q : ℚ) :
    xcos M (XQ.fin q) = XQ.fin (M.cos q) := rfl

@[simp] theorem v3_add_eval (a b : V3) :
    a + b = ⟨a.x + b.x, a.y + b.y, a.z + b.z⟩ := rfl

@[simp] theorem v3_sub_eval (a b : V3) :
    a - b = ⟨a.x - b.x, a.y - b.y, a.z - b.z⟩ := rfl

@[simp] theorem Color.new_r (r g b : ℕ) : (Color.new r g b).r = r := rfl

@[simp] theorem Color.new_g (r g b : ℕ) : (Color.new r g b).g = g := rfl

@[simp] theorem Color.new_b (r g b : ℕ) : (Color.new r g b).b = b := rfl

@[simp] theorem Intersect.new_point (p n : V3) (d : XQ) (m : Material) (u v : XQ) :
    (Intersect.new p n d m u v).point = p := rfl

@[simp] theorem Intersect.new_normal (p n : V3) (d : XQ) (m : Material) (u v : XQ) :
    (Intersect.new p n d m u v).normal = n := rfl

@[simp] theorem Intersect.new_distance (p n : V3) (d : XQ) (m : Material) (u v : XQ) :
    (Intersect.new p n d m u v).distance = d := rfl

@[simp] theorem Intersect.new_is (p n : V3) (d : XQ) (m : Material) (u v : XQ) :
    (Intersect.new p n d m u v).is_intersecting = true := rfl

@[simp] theorem Intersect.new_material (p n : V3) (d : XQ) (m : Material) (u v : XQ) :
    (Intersect.new p n d m u v).material = m := rfl

@[simp] theorem Intersect.new_u (p n : V3) (d : XQ) (m : Material) (u v : XQ) :
    (Intersect.new p n d m u v).u = u := rfl

@[simp] theorem Intersect.new_v (p n : V3) (d : XQ) (m : Material) (u v : XQ) :
    (Intersect.new p n d m u v).v = v := rfl

@[simp] theorem Intersect.empty_is : (Intersect.empty).is_intersecting = false := rfl

theorem M0_sqrt : M0.sqrt = sqrtTab0 := rfl

theorem M0_powf (b e : ℚ) : M0.powf b e = 0 := rfl

theorem mat0_albedo0 : mat0.albedo0 = XQ.fin 1 := rfl

theorem mat0_albedo1 : mat0.albedo1 = XQ.fin 0 := rfl

theorem mat0_albedo2 : mat0.albedo2 = XQ.fin 0 := rfl

theorem mat0_albedo3 : mat0.albedo3 = XQ.fin 0 := rfl

theorem mat0_specular : mat0.specular = XQ.fin 50 := rfl

theorem mat0_getdc (u v : XQ) : mat0.get_diffuse_color u v = some (Color.new 200 0 0) := rfl

theorem light0_position : light0.position = ⟨XQ.fin 0, XQ.fin 5, XQ.fin 0⟩ := rfl

theorem light0_intensity : light0.intensity = XQ.fin (1/5) := rfl

theorem light0_color : light0.color = Color.new 255 255 255 := rfl

theorem hitRec0_point : hitRec0.point = ⟨XQ.fin 0, XQ.fin 1, XQ.fin 0⟩ := rfl

theorem hitRec0_normal : hitRec0.normal = ⟨XQ.fin 0, XQ.fin 1, XQ.fin 0⟩ := rfl

theorem hitRec0_material : hitRec0.material = mat0 := rfl

theorem hitRec0_u : hitRec0.u = XQ.fin (1/2) := rfl

theorem hitRec0_v : hitRec0.v = XQ.fin (1/2) := rfl

theorem hitRec0_hit : hitRec0.is_intersecting = true := rfl

/-- One unfolding of `castRayGo` at a positive budget, with the three
branches named: this is the hit-shape equation every shading claim uses. -/
theorem castRayGo_succ_eq (M : MathOps) (objects : List Object) (lights : Light)
    (gas : ℕ) (ray_origin ray_direction : V3) :
    castRayGo M objects lights (gas + 1) ray_origin ray_direction =
      (let inter := closestHit M objects ray_origin ray_direction
       if inter.is_intersecting = false then some (Color.new 4 12 36)
       else
         match inter.material.get_diffuse_color inter.u inter.v with
         | none => none
         | some diffuse_color =>
           match reflect_part M objects lights gas ray_direction inter with
           | none => none
           | some reflect_color =>
             match refract_part M objects lights gas ray_direction inter with
             | none => none
             | some refract_color =>
               some (blend_colors
                 (local_lit M ray_origin ray_direction objects lights inter diffuse_color)
                 reflect_color refract_color
                 inter.material.albedo2 inter.material.albedo3)) := rfl

/-- Concrete evaluation: the downward ray from `origin0` hits `sphere0` at
`(0,1,0)` with distance 2 and normal `(0,1,0)`. -/
theorem closestHit_scene0 : closestHit M0 scene0 origin0 dir0 = hitRec0 := by
  norm_num [closestHit, scene0, Object.ray_intersect, hitRec0,
    Sphere.ray_intersect, M0, sphere0, origin0, dir0, V3.dot, V3.zeros,
    mat0, sqrtTab0, XQ.sqrtWith, Intersect.new, V3.smul, V3.normalizeWith,
    V3.magnitudeWith, Sphere.get_uv]

/-- Concrete evaluation: the shadow ray from the `hitRec0` hit toward
`light0` escapes the scene, so the shadow factor is 0. -/
theorem shadow_scene0 : cast_shadow M0 hitRec0 light0 scene0 = XQ.fin 0 := by
  norm_num [cast_shadow, castShadowLoop, scene0, Object.ray_intersect,
    hitRec0_point, hitRec0_normal, light0_position, M0_sqrt,
    Sphere.ray_intersect, M0, sphere0, V3.dot, V3.zeros, Intersect.empty,
    mat0, sqrtTab0, XQ.sqrtWith, Intersect.new, V3.smul, V3.normalizeWith,
    V3.magnitudeWith, Sphere.get_uv, Material.black]

/-- Concrete evaluation of the local (ambient + diffuse + specular) color at
the `hitRec0` hit: ambient 60 + diffuse 40 + specular 0 in the red channel. -/
theorem local_lit_scene0 :
    local_lit M0 origin0 dir0 scene0 light0 hitRec0 (Color.new 200 0 0) = Color.new 100 0 0 := by
  norm_num [local_lit, ambient_term, diffuse_term, specular_term, shadow_scene0,
    hitRec0_point, hitRec0_normal, hitRec0_material, M0_sqrt, M0_powf,
    mat0_albedo0, mat0_albedo1, mat0_specular,
    light0_position, light0_intensity, light0_color,
    origin0, dir0, V3.dot, V3.zeros, V3.smul,
    V3.normalizeWith, V3.magnitudeWith, sqrtTab0, XQ.sqrtWith, reflect, V3.neg,
    xpow, Int.toNat_ofNat, Nat.min_def]
  decide

/-- Concrete evaluation of a full `cast_ray` call on the one-sphere scene
under the 0.2-intensity light: the result is `(100, 0, 0)`, the sum of the
global ambient term (60) and the unattenuated diffuse term (40). -/
theorem cast_ray_scene0 : cast_ray M0 origin0 dir0 scene0 light0 0 = some (Color.new 100 0 0) := by
  have h1 : cast_ray M0 origin0 dir0 scene0 light0 0 =
      castRayGo M0 scene0 light0 (1 + 1) origin0 dir0 := rfl
  rw [h1, castRayGo_succ_eq]
  simp only [closestHit_scene0, hitRec0_hit, hitRec0_material, hitRec0_u, hitRec0_v, mat0_getdc]
  norm_num [reflect_part, refract_part, hitRec0_material, mat0_albedo2, mat0_albedo3,
    local_lit_scene0, blend_colors, Int.toNat_ofNat]
  decide

@[simp] theorem XQ.pinf_add_pinf : (XQ.pinf : XQ) + XQ.pinf = XQ.pinf := rfl

@[simp] theorem XQ.ninf_add_ninf : (XQ.ninf : XQ) + XQ.ninf = XQ.ninf := rfl

@[simp] theorem XQ.pinf_add_ninf : (XQ.pinf : XQ) + XQ.ninf = XQ.nan := rfl

@[simp] theorem XQ.ninf_add_pinf : (XQ.ninf : XQ) + XQ.pinf = XQ.nan := rfl

@[simp] theorem XQ.pinf_mul_ninf2 : (XQ.pinf : XQ) * XQ.ninf = XQ.ninf := rfl

@[simp] theorem XQ.ninf_mul_pinf2 : (XQ.ninf : XQ) * XQ.pinf = XQ.ninf := rfl

/-- The `as u8` cast never exceeds 255 (saturation). -/
theorem XQ.toU8_le (x : XQ) : XQ.toU8 x ≤ 255 := by
  cases x with
  | fin q =>
      simp only [XQ.toU8]
      split_ifs with h1 h2
      · omega
      · omega
      · push_neg at h1 h2
        have hf : (⌊q⌋ : ℚ) ≤ q := Int.floor_le q
        have : ⌊q⌋ < 255 := by
          have := lt_of_le_of_lt hf h2
          exact_mod_cast Int.floor_lt.mpr (by exact_mod_cast h2)
        omega
  | pinf => simp [XQ.toU8]
  | ninf => simp [XQ.toU8]
  | nan => simp [XQ.toU8]

/-- `Sphere::ray_intersect`, restated through `sphereDisc` / `sphereT`
(definitionally equal to the definition above). -/
theorem sphere_eq (M : MathOps) (s : Sphere) (o d : V3) :
    Sphere.ray_intersect M s o d =
      (if XQ.blt (XQ.fin 0) (sphereDisc s o d) then
        if XQ.blt (XQ.fin 0) (sphereT M s o d) then
          let point := o + V3.smul (sphereT M s o d) d
          Intersect.new point (V3.normalizeWith M.sqrt (point - s.center))
            (sphereT M s o d) s.material
            (Sphere.get_uv M s point).1 (Sphere.get_uv M s point).2
        else Intersect.empty
      else Intersect.empty) := rfl

/-- `Cube::ray_intersect`, restated through `cubeT1` / `cubeT2`
(definitionally equal to the definition above). -/
theorem cube_eq (cube : Cube) (o d : V3) :
    Cube.ray_intersect cube o d =
      (if XQ.blt (cubeT2 cube o d) (cubeT1 cube o d) || XQ.blt (cubeT2 cube o d) (XQ.fin 0)
       then Intersect.empty
       else
        let t_hit := if XQ.blt (cubeT1 cube o d) (XQ.fin 0) then cubeT2 cube o d
                     else cubeT1 cube o d
        let p := o + V3.smul t_hit d
        let mn := cube.minCorner
        let mx := cube.maxCorner
        let nX : XQ := if nearBound p.x mn.x then XQ.fin (-1)
                       else if nearBound p.x mx.x then XQ.fin 1 else XQ.fin 0
        let f1 : Fin 6 := if nearBound p.x mn.x then 0
                          else if nearBound p.x mx.x then 1 else 0
        let nY : XQ := if nearBound p.y mn.y then XQ.fin (-1)
                       else if nearBound p.y mx.y then XQ.fin 1 else XQ.fin 0
        let f2 : Fin 6 := if nearBound p.y mn.y then 3
                          else if nearBound p.y mx.y then 2 else f1
        let nZ : XQ := if nearBound p.z mn.z then XQ.fin (-1)
                       else if nearBound p.z mx.z then XQ.fin 1 else XQ.fin 0
        let f3 : Fin 6 := if nearBound p.z mn.z then 5
                          else if nearBound p.z mx.z then 4 else f2
        Intersect.new p ⟨nX, nY, nZ⟩ t_hit (cube.materials f3)
          (Cube.get_uv_for_face f3 (p - cube.center)).1
          (Cube.get_uv_for_face f3 (p - cube.center)).2) := rfl

/-- If the cube normal loop fires on exactly one axis, the produced normal is
a signed standard basis vector, hence has unit squared length. -/
theorem cubeNormalDot (p mn mx : V3)
    (hone :
      (nearAxisPair p.x mn.x mx.x = true ∧ nearAxisPair p.y mn.y mx.y = false ∧
       nearAxisPair p.z mn.z mx.z = false) ∨
      (nearAxisPair p.x mn.x mx.x = false ∧ nearAxisPair p.y mn.y mx.y = true ∧
       nearAxisPair p.z mn.z mx.z = false) ∨
      (nearAxisPair p.x mn.x mx.x = false ∧ nearAxisPair p.y mn.y mx.y = false ∧
       nearAxisPair p.z mn.z mx.z = true)) :
    V3.dot
      ⟨(if nearBound p.x mn.x then XQ.fin (-1)
        else if nearBound p.x mx.x then XQ.fin 1 else XQ.fin 0),
       (if nearBound p.y mn.y then XQ.fin (-1)
        else if nearBound p.y mx.y then XQ.fin 1 else XQ.fin 0),
       (if nearBound p.z mn.z then XQ.fin (-1)
        else if nearBound p.z mx.z then XQ.fin 1 else XQ.fin 0)⟩
      ⟨(if nearBound p.x mn.x then XQ.fin (-1)
        else if nearBound p.x mx.x then XQ.fin 1 else XQ.fin 0),
       (if nearBound p.y mn.y then XQ.fin (-1)
        else if nearBound p.y mx.y then XQ.fin 1 else XQ.fin 0),
       (if nearBound p.z mn.z then XQ.fin (-1)
        else if nearBound p.z mx.z then XQ.fin 1 else XQ.fin 0)⟩ = XQ.fin 1 := by
  rcases hone with ⟨h1, h2, h3⟩ | ⟨h1, h2, h3⟩ | ⟨h1, h2, h3⟩ <;>
    simp only [nearAxisPair, Bool.or_eq_true, Bool.or_eq_false_iff] at h1 h2 h3
  · obtain ⟨h2a, h2b⟩ := h2
    obtain ⟨h3a, h3b⟩ := h3
    by_cases h1m : nearBound p.x mn.x = true
    · simp [V3.dot, h1m, h2a, h2b, h3a, h3b]
    · have h1x : nearBound p.x mx.x = true := by
        rcases h1 with h | h
        · exact absurd h h1m
        · exact h
      simp [V3.dot, h1m, h1x, h2a, h2b, h3a, h3b]
  · obtain ⟨h1a, h1b⟩ := h1
    obtain ⟨h3a, h3b⟩ := h3
    by_cases h2m : nearBound p.y mn.y = true
    · simp [V3.dot, h2m, h1a, h1b, h3a, h3b]
    · have h2x : nearBound p.y mx.y = true := by
        rcases h2 with h | h
        · exact absurd h h2m
        · exact h
      simp [V3.dot, h2m, h2x, h1a, h1b, h3a, h3b]
  · obtain ⟨h1a, h1b⟩ := h1
    obtain ⟨h2a, h2b⟩ := h2
    by_cases h3m : nearBound p.z mn.z = true
    · simp [V3.dot, h3m, h1a, h1b, h2a, h2b]
    · have h3x : nearBound p.z mx.z = true := by
        rcases h3 with h | h
        · exact absurd h h3m
        · exact h
      simp [V3.dot, h3m, h3x, h1a, h1b, h2a, h2b]

/-- A finite squared length forces all three components to be finite. -/
theorem dot_self_fin (v : V3) (q : ℚ) (h : V3.dot v v = XQ.fin q) :
    ∃ a b c : ℚ, v.x = XQ.fin a ∧ v.y = XQ.fin b ∧ v.z = XQ.fin c ∧
      q = a * a + b * b + c * c := by
  obtain ⟨x, y, z⟩ := v
  cases x <;> cases y <;> cases z <;> simp_all [V3.dot]

/-- Concrete evaluation: `Sphere::ray_intersect` on the downward ray of the
one-sphere scene. -/
theorem sphere_ray_scene0 : Sphere.ray_intersect M0 sphere0 origin0 dir0 = hitRec0 := by
  norm_num [Sphere.ray_intersect, M0, sphere0, origin0, dir0, V3.dot, V3.zeros,
    mat0, sqrtTab0, XQ.sqrtWith, Intersect.new, V3.smul, V3.normalizeWith,
    V3.magnitudeWith, Sphere.get_uv, hitRec0]

/-- Concrete evaluation: the axis ray from `(5,0,0)` toward `(-1,0,0)`
against the size-2 origin cube: face hit at distance 4, point `(1,0,0)`,
normal `(1,0,0)`. -/
theorem cube_face_eval :
    (Cube.ray_intersect cube0 origin5 dir5).is_intersecting = true ∧
    (Cube.ray_intersect cube0 origin5 dir5).distance = XQ.fin 4 ∧
    (Cube.ray_intersect cube0 origin5 dir5).point = ⟨XQ.fin 1, XQ.fin 0, XQ.fin 0⟩ ∧
    (Cube.ray_intersect cube0 origin5 dir5).normal = ⟨XQ.fin 1, XQ.fin 0, XQ.fin 0⟩ := by
  norm_num [Cube.ray_intersect, cube0, origin5, dir5, Cube.minCorner, Cube.maxCorner,
    V3.compMul, V3.smul, V3.zeros, nearBound, XQ.fin_div_fin, XQ.fin_mul_pinf,
    XQ.ninf_mul_fin, XQ.pinf_mul_fin, Intersect.new]

/-- C2: `cast_ray` terminates on every input (it is a total function of the
model, by construction); whenever `depth` exceeds the recursion limit 1 it
returns the background color `(4, 12, 36)` immediately, without testing any
geometry, so the reflection/refraction recursion (each recursive call passes
`depth + 1`) is bounded by the limit for every scene, facing mirrors
included. -/
theorem c2_depth_guard (M : MathOps) (ray_origin ray_direction : V3)
    (objects : List Object) (lights : Light) (depth : ℕ) (h : 1 < depth) :
    cast_ray M ray_origin ray_direction objects lights depth = some (Color.new 4 12 36) := by
  show castRayGo M objects lights (2 - depth) ray_origin ray_direction = _
  rw [show 2 - depth = 0 by omega]
  rfl

theorem c2_depth_guard_witness :
    1 < 2 ∧ cast_ray M0 origin0 dir0 scene0 light0 2 = some (Color.new 4 12 36) :=
  ⟨by norm_num, c2_depth_guard M0 origin0 dir0 scene0 light0 2 (by norm_num)⟩

/-- C4: `Sphere::ray_intersect` reports a hit exactly when the quadratic
discriminant is strictly positive and the smaller root
`t = (-b - sqrt(disc)) / (2a)` is strictly positive (tangent rays with zero
discriminant and roots behind the origin are misses), and on a hit the
reported distance is that `t`.  In particular, for a sphere of radius
`0 < r < 5` at the origin, the ray from `(0,0,5)` toward `(0,0,-1)` hits at
distance `5 - r` with point `(0,0,r)` and outward normal `(0,0,1)` (the
hypotheses say the platform square root is exact at the two perfect squares
involved). -/
theorem c4_sphere_intersect_contract :
    (∀ (M : MathOps) (s : Sphere) (o d : V3),
      ((Sphere.ray_intersect M s o d).is_intersecting = true ↔
        (XQ.blt (XQ.fin 0) (sphereDisc s o d) = true ∧
         XQ.blt (XQ.fin 0) (sphereT M s o d) = true)) ∧
      ((Sphere.ray_intersect M s o d).is_intersecting = true →
        (Sphere.ray_intersect M s o d).distance = sphereT M s o d)) ∧
    (∀ (M : MathOps) (r : ℚ) (mat : Material),
      0 < r → r < 5 → M.sqrt (4 * r ^ 2) = 2 * r → M.sqrt (r ^ 2) = r →
      (Sphere.ray_intersect M ⟨V3.zeros, XQ.fin r, mat⟩
          ⟨XQ.fin 0, XQ.fin 0, XQ.fin 5⟩ ⟨XQ.fin 0, XQ.fin 0, XQ.fin (-1)⟩).is_intersecting
        = true ∧
      (Sphere.ray_intersect M ⟨V3.zeros, XQ.fin r, mat⟩
          ⟨XQ.fin 0, XQ.fin 0, XQ.fin 5⟩ ⟨XQ.fin 0, XQ.fin 0, XQ.fin (-1)⟩).distance
        = XQ.fin (5 - r) ∧
      (Sphere.ray_intersect M ⟨V3.zeros, XQ.fin r, mat⟩
          ⟨XQ.fin 0, XQ.fin 0, XQ.fin 5⟩ ⟨XQ.fin 0, XQ.fin 0, XQ.fin (-1)⟩).point
        = ⟨XQ.fin 0, XQ.fin 0, XQ.fin r⟩ ∧
      (Sphere.ray_intersect M ⟨V3.zeros, XQ.fin r, mat⟩
          ⟨XQ.fin 0, XQ.fin 0, XQ.fin 5⟩ ⟨XQ.fin 0, XQ.fin 0, XQ.fin (-1)⟩).normal
        = ⟨XQ.fin 0, XQ.fin 0, XQ.fin 1⟩) := by
  constructor
  · intro M s o d
    rw [sphere_eq]
    split_ifs with h1 h2 <;> simp_all [Intersect.empty]
  · intro M r mat h1 h2 hs1 hs2
    have hd : sphereDisc ⟨V3.zeros, XQ.fin r, mat⟩
        ⟨XQ.fin 0, XQ.fin 0, XQ.fin 5⟩ ⟨XQ.fin 0, XQ.fin 0, XQ.fin (-1)⟩
        = XQ.fin (4 * r ^ 2) := by
      simp [sphereDisc, V3.dot, V3.zeros]
      try ring
    have hnn : ¬ (4 * r ^ 2 < 0) := not_lt.mpr (by positivity)
    have ht : sphereT M ⟨V3.zeros, XQ.fin r, mat⟩
        ⟨XQ.fin 0, XQ.fin 0, XQ.fin 5⟩ ⟨XQ.fin 0, XQ.fin 0, XQ.fin (-1)⟩
        = XQ.fin (5 - r) := by
      rw [sphereT, hd]
      simp [V3.dot, V3.zeros, XQ.sqrtWith, hnn, hs1]
      try ring
    rw [sphere_eq, hd, ht]
    have hb1 : XQ.blt (XQ.fin 0) (XQ.fin (4 * r ^ 2)) = true := by
      simp
      positivity
    have hb2 : XQ.blt (XQ.fin 0) (XQ.fin (5 - r)) = true := by
      simp
      linarith
    rw [hb1, hb2]
    simp only [if_true]
    have hp : (⟨XQ.fin 0, XQ.fin 0, XQ.fin 5⟩ : V3) + V3.smul (XQ.fin (5 - r))
        ⟨XQ.fin 0, XQ.fin 0, XQ.fin (-1)⟩ = ⟨XQ.fin 0, XQ.fin 0, XQ.fin r⟩ := by
      simp [V3.smul]
      try ring
    rw [hp]
    refine ⟨rfl, rfl, rfl, ?_⟩
    have hq : (⟨XQ.fin 0, XQ.fin 0, XQ.fin r⟩ : V3) - V3.zeros
        = ⟨XQ.fin 0, XQ.fin 0, XQ.fin r⟩ := by
      simp [V3.zeros]
    simp only [Intersect.new_normal, hq]
    have hdot : V3.dot ⟨XQ.fin 0, XQ.fin 0, XQ.fin r⟩ ⟨XQ.fin 0, XQ.fin 0, XQ.fin r⟩
        = XQ.fin (r ^ 2) := by
      simp [V3.dot]
      try ring
    have hrnn : ¬ (r ^ 2 < 0) := not_lt.mpr (by positivity)
    have hr0 : r ≠ 0 := ne_of_gt h1
    simp [V3.normalizeWith, V3.magnitudeWith, hdot, XQ.sqrtWith, hrnn, hs2, hr0]

theorem c4_witness :
    (0:ℚ) < 1 ∧ (1:ℚ) < 5 ∧ M0.sqrt (4 * 1 ^ 2) = 2 * 1 ∧ M0.sqrt (1 ^ 2) = 1 ∧
    (Sphere.ray_intersect M0 ⟨V3.zeros, XQ.fin 1, mat0⟩
        ⟨XQ.fin 0, XQ.fin 0, XQ.fin 5⟩ ⟨XQ.fin 0, XQ.fin 0, XQ.fin (-1)⟩).distance
      = XQ.fin (5 - 1) := by
  have hs1 : M0.sqrt (4 * 1 ^ 2) = 2 * 1 := by norm_num [M0_sqrt, sqrtTab0]
  have hs2 : M0.sqrt (1 ^ 2) = 1 := by norm_num [M0_sqrt, sqrtTab0]
  exact ⟨by norm_num, by norm_num, hs1, hs2,
    (c4_sphere_intersect_contract.2 M0 1 mat0 (by norm_num) (by norm_num) hs1 hs2).2.1⟩

/-- C5: `Cube::ray_intersect` (slab test) returns a non-hit exactly when
`t_enter > t_exit` or `t_exit < 0` (comparisons with the Rust `f32`
semantics on the computed slab parameters), and on a hit the reported
distance is `t_enter` unless `t_enter` is negative (origin inside the box),
in which case it is `t_exit`.  In particular, for a cube of size 2 at the
origin, the ray from `(5,0,0)` toward `(-1,0,0)` hits the `+X` face at
distance 4 with normal `(1,0,0)`. -/
theorem c5_cube_slab_contract :
    (∀ (cube : Cube) (o d : V3),
      ((Cube.ray_intersect cube o d).is_intersecting = false ↔
        (XQ.blt (cubeT2 cube o d) (cubeT1 cube o d) = true ∨
         XQ.blt (cubeT2 cube o d) (XQ.fin 0) = true)) ∧
      ((Cube.ray_intersect cube o d).is_intersecting = true →
        (Cube.ray_intersect cube o d).distance =
          (if XQ.blt (cubeT1 cube o d) (XQ.fin 0) = true then cubeT2 cube o d
           else cubeT1 cube o d))) ∧
    ((Cube.ray_intersect cube0 origin5 dir5).is_intersecting = true ∧
     (Cube.ray_intersect cube0 origin5 dir5).distance = XQ.fin 4 ∧
     (Cube.ray_intersect cube0 origin5 dir5).normal = ⟨XQ.fin 1, XQ.fin 0, XQ.fin 0⟩) := by
  constructor
  · intro cube o d
    rw [cube_eq]
    split_ifs with h1 h2 <;> simp_all [Intersect.empty]
  · exact ⟨cube_face_eval.1, cube_face_eval.2.1, cube_face_eval.2.2.2⟩

theorem c5_witness :
    (Cube.ray_intersect cube0 origin5 dir5).is_intersecting = true ∧
    (Cube.ray_intersect cube0 origin5 dir5).distance =
      (if XQ.blt (cubeT1 cube0 origin5 dir5) (XQ.fin 0) = true then cubeT2 cube0 origin5 dir5
       else cubeT1 cube0 origin5 dir5) := by
  have hh := cube_face_eval.1
  exact ⟨hh, (c5_cube_slab_contract.1 cube0 origin5 dir5).2 hh⟩

/-- C8 counterexample: the diagonal ray from `(5,5,0)` toward `(-1,-1,0)`
strikes the size-2 origin cube exactly on the edge shared by the `+X` and
`+Y` faces; the normal loop then fires on two axes and returns the normal
`(1,1,0)`, whose squared length is 2, not 1.  This refutes the claim that
every returned hit carries a unit normal. -/
theorem c8_normal_not_unit_on_edge :
    (Cube.ray_intersect cube0 originC8 dirC8).is_intersecting = true ∧
    V3.dot (Cube.ray_intersect cube0 originC8 dirC8).normal
      (Cube.ray_intersect cube0 originC8 dirC8).normal ≠ XQ.fin 1 := by
  norm_num [Cube.ray_intersect, cube0, originC8, dirC8, Cube.minCorner, Cube.maxCorner,
    V3.compMul, V3.smul, V3.zeros, nearBound, XQ.fin_div_fin, XQ.fin_mul_pinf,
    XQ.ninf_mul_fin, XQ.pinf_mul_fin, Intersect.new, V3.dot]

/-- C8 (amended): a cube hit whose point lies within the `1e-4` face
tolerance on exactly one axis carries a unit normal (squared length 1), and a
sphere hit carries a unit normal whenever the platform square root is exact
at the squared length of the hit-to-center vector and that length is not
zero.  (The original claim fails at edge/corner hits, where the loop sets
two or three normal components; see `c8_normal_not_unit_on_edge`.) -/
theorem c8_unit_normals :
    (∀ (cube : Cube) (o d : V3),
      (Cube.ray_intersect cube o d).is_intersecting = true →
      ((nearAxisPair (Cube.ray_intersect cube o d).point.x cube.minCorner.x cube.maxCorner.x = true ∧
        nearAxisPair (Cube.ray_intersect cube o d).point.y cube.minCorner.y cube.maxCorner.y = false ∧
        nearAxisPair (Cube.ray_intersect cube o d).point.z cube.minCorner.z cube.maxCorner.z = false) ∨
       (nearAxisPair (Cube.ray_intersect cube o d).point.x cube.minCorner.x cube.maxCorner.x = false ∧
        nearAxisPair (Cube.ray_intersect cube o d).point.y cube.minCorner.y cube.maxCorner.y = true ∧
        nearAxisPair (Cube.ray_intersect cube o d).point.z cube.minCorner.z cube.maxCorner.z = false) ∨
       (nearAxisPair (Cube.ray_intersect cube o d).point.x cube.minCorner.x cube.maxCorner.x = false ∧
        nearAxisPair (Cube.ray_intersect cube o d).point.y cube.minCorner.y cube.maxCorner.y = false ∧
        nearAxisPair (Cube.ray_intersect cube o d).point.z cube.minCorner.z cube.maxCorner.z = true)) →
      V3.dot (Cube.ray_intersect cube o d).normal (Cube.ray_intersect cube o d).normal
        = XQ.fin 1) ∧
    (∀ (M : MathOps) (s : Sphere) (o d : V3) (q : ℚ),
      (Sphere.ray_intersect M s o d).is_intersecting = true →
      V3.dot ((Sphere.ray_intersect M s o d).point - s.center)
          ((Sphere.ray_intersect M s o d).point - s.center) = XQ.fin q →
      q ≠ 0 → M.sqrt q * M.sqrt q = q →
      V3.dot (Sphere.ray_intersect M s o d).normal (Sphere.ray_intersect M s o d).normal
        = XQ.fin 1) := by
  constructor
  · intro cube o d hhit hone
    by_cases hc : (XQ.blt (cubeT2 cube o d) (cubeT1 cube o d) ||
        XQ.blt (cubeT2 cube o d) (XQ.fin 0)) = true
    · rw [cube_eq, if_pos hc] at hhit
      simp [Intersect.empty] at hhit
    · rw [cube_eq, if_neg hc] at hone ⊢
      simp only [Intersect.new_point, Intersect.new_normal] at hone ⊢
      exact cubeNormalDot _ _ _ hone
  · intro M s o d q hhit hq hqne hsq
    by_cases hb1 : XQ.blt (XQ.fin 0) (sphereDisc s o d) = true
    · by_cases hb2 : XQ.blt (XQ.fin 0) (sphereT M s o d) = true
      · rw [sphere_eq, if_pos hb1, if_pos hb2] at hq ⊢
        simp only [Intersect.new_point, Intersect.new_normal] at hq ⊢
        obtain ⟨a, b, c, hx, hy, hz, hsum⟩ := dot_self_fin _ _ hq
        have hqnn : ¬ (q < 0) := by
          rw [hsum]
          push_neg
          nlinarith [mul_self_nonneg a, mul_self_nonneg b, mul_self_nonneg c]
        have hs0 : M.sqrt q ≠ 0 := by
          intro h0
          rw [h0, mul_zero] at hsq
          exact hqne hsq.symm
        have hmag : V3.magnitudeWith M.sqrt
            ((o + V3.smul (sphereT M s o d) d) - s.center) = XQ.fin (M.sqrt q) := by
          rw [V3.magnitudeWith, hq]
          simp [XQ.sqrtWith, hqnn]
        rw [V3.normalizeWith, hmag]
        rw [hx, hy, hz]
        rw [XQ.fin_div_fin_ne _ _ hs0, XQ.fin_div_fin_ne _ _ hs0, XQ.fin_div_fin_ne _ _ hs0]
        simp only [V3.dot, XQ.fin_mul_fin, XQ.fin_add_fin, XQ.fin.injEq]
        rw [div_mul_div_comm, div_mul_div_comm, div_mul_div_comm, hsq]
        rw [div_add_div_same, div_add_div_same, ← hsum]
        exact div_self hqne
      · rw [sphere_eq, if_pos hb1, if_neg hb2] at hhit
        simp [Intersect.empty] at hhit
    · rw [sphere_eq, if_neg hb1] at hhit
      simp [Intersect.empty] at hhit

theorem c8_witness :
    V3.dot (Cube.ray_intersect cube0 origin5 dir5).normal
        (Cube.ray_intersect cube0 origin5 dir5).normal = XQ.fin 1 ∧
    V3.dot (Sphere.ray_intersect M0 sphere0 origin0 dir0).normal
        (Sphere.ray_intersect M0 sphere0 origin0 dir0).normal = XQ.fin 1 := by
  constructor
  · refine c8_unit_normals.1 cube0 origin5 dir5 cube_face_eval.1 (Or.inl ⟨?_, ?_, ?_⟩) <;>
      rw [cube_face_eval.2.2.1] <;>
      norm_num [nearAxisPair, nearBound, cube0, Cube.minCorner, Cube.maxCorner, V3.zeros]
  · refine c8_unit_normals.2 M0 sphere0 origin0 dir0 1 ?_ ?_ (by norm_num) ?_
    · rw [sphere_ray_scene0]
      rfl
    · rw [sphere_ray_scene0, hitRec0_point]
      norm_num [sphere0, V3.zeros, V3.dot]
    · norm_num [M0_sqrt, sqrtTab0]

/-- One unfolding of `cast_ray` at a hit, for depths within the recursion
limit: the result is the diffuse-color lookup, the two recursive branches and
the final blend. -/
theorem cast_ray_hit_eq (M : MathOps) (ray_origin ray_direction : V3)
    (objects : List Object) (lights : Light) (depth : ℕ)
    (hd : depth ≤ 1)
    (hhit : (closestHit M objects ray_origin ray_direction).is_intersecting = true) :
    cast_ray M ray_origin ray_direction objects lights depth =
      (match (closestHit M objects ray_origin ray_direction).material.get_diffuse_color
               (closestHit M objects ray_origin ray_direction).u
               (closestHit M objects ray_origin ray_direction).v with
       | none => none
       | some diffuse_color =>
         match reflect_part M objects lights (1 - depth) ray_direction
                 (closestHit M objects ray_origin ray_direction) with
         | none => none
         | some reflect_color =>
           match refract_part M objects lights (1 - depth) ray_direction
                   (closestHit M objects ray_origin ray_direction) with
           | none => none
           | some refract_color =>
             some (blend_colors
               (local_lit M ray_origin ray_direction objects lights
                 (closestHit M objects ray_origin ray_direction) diffuse_color)
               reflect_color refract_color
               (closestHit M objects ray_origin ray_direction).material.albedo2
               (closestHit M objects ray_origin ray_direction).material.albedo3)) := by
  have he : cast_ray M ray_origin ray_direction objects lights depth =
      castRayGo M objects lights ((1 - depth) + 1) ray_origin ray_direction := by
    show castRayGo M objects lights (2 - depth) ray_origin ray_direction = _
    congr 1
    omega
  rw [he]
  simp only [castRayGo_succ_eq]
  rw [if_neg (by simp [hhit])]

/-- C6: on every hit (within the recursion limit), the color returned by
`cast_ray` is, per channel,
`local*(1 - reflect_k - refract_k) + reflect*reflect_k + refract*refract_k`
(`blend_colors`, with the saturating `min 255` and `as u8` casts), and every
channel of the result is at most 255 — the casts saturate, they never wrap. -/
theorem c6_final_blend (M : MathOps) (ray_origin ray_direction : V3)
    (objects : List Object) (lights : Light) (depth : ℕ) (c : Color)
    (hd : depth ≤ 1)
    (hhit : (closestHit M objects ray_origin ray_direction).is_intersecting = true)
    (hres : cast_ray M ray_origin ray_direction objects lights depth = some c) :
    ∃ diffuse_color reflect_color refract_color : Color,
      (closestHit M objects ray_origin ray_direction).material.get_diffuse_color
          (closestHit M objects ray_origin ray_direction).u
          (closestHit M objects ray_origin ray_direction).v = some diffuse_color ∧
      reflect_part M objects lights (1 - depth) ray_direction
          (closestHit M objects ray_origin ray_direction) = some reflect_color ∧
      refract_part M objects lights (1 - depth) ray_direction
          (closestHit M objects ray_origin ray_direction) = some refract_color ∧
      c = blend_colors
            (local_lit M ray_origin ray_direction objects lights
              (closestHit M objects ray_origin ray_direction) diffuse_color)
            reflect_color refract_color
            (closestHit M objects ray_origin ray_direction).material.albedo2
            (closestHit M objects ray_origin ray_direction).material.albedo3 ∧
      c.r ≤ 255 ∧ c.g ≤ 255 ∧ c.b ≤ 255 := by
  rw [cast_ray_hit_eq M ray_origin ray_direction objects lights depth hd hhit] at hres
  cases hdc : (closestHit M objects ray_origin ray_direction).material.get_diffuse_color
      (closestHit M objects ray_origin ray_direction).u
      (closestHit M objects ray_origin ray_direction).v with
  | none => rw [hdc] at hres; exact absurd hres (by simp)
  | some dc =>
    rw [hdc] at hres
    cases hrp : reflect_part M objects lights (1 - depth) ray_direction
        (closestHit M objects ray_origin ray_direction) with
    | none => rw [hrp] at hres; exact absurd hres (by simp)
    | some rc =>
      rw [hrp] at hres
      cases hfp : refract_part M objects lights (1 - depth) ray_direction
          (closestHit M objects ray_origin ray_direction) with
      | none => rw [hfp] at hres; exact absurd hres (by simp)
      | some tc =>
        rw [hfp] at hres
        injection hres with hres
        refine ⟨dc, rc, tc, rfl, rfl, rfl, hres.symm, ?_, ?_, ?_⟩ <;>
          rw [← hres] <;> exact XQ.toU8_le _

theorem c6_witness :
    ∃ diffuse_color reflect_color refract_color : Color,
      (closestHit M0 scene0 origin0 dir0).material.get_diffuse_color
          (closestHit M0 scene0 origin0 dir0).u
          (closestHit M0 scene0 origin0 dir0).v = some diffuse_color ∧
      reflect_part M0 scene0 light0 (1 - 0) dir0
          (closestHit M0 scene0 origin0 dir0) = some reflect_color ∧
      refract_part M0 scene0 light0 (1 - 0) dir0
          (closestHit M0 scene0 origin0 dir0) = some refract_color ∧
      Color.new 100 0 0 = blend_colors
            (local_lit M0 origin0 dir0 scene0 light0
              (closestHit M0 scene0 origin0 dir0) diffuse_color)
            reflect_color refract_color
            (closestHit M0 scene0 origin0 dir0).material.albedo2
            (closestHit M0 scene0 origin0 dir0).material.albedo3 ∧
      (Color.new 100 0 0).r ≤ 255 ∧ (Color.new 100 0 0).g ≤ 255 ∧
      (Color.new 100 0 0).b ≤ 255 :=
  c6_final_blend M0 origin0 dir0 scene0 light0 0 (Color.new 100 0 0) (by norm_num)
    (by rw [closestHit_scene0]; rfl) cast_ray_scene0

/-- C7 counterexample: `light0` has intensity 0.2, at most the claimed 0.3
ambient threshold, yet on the concrete one-sphere scene `cast_ray` returns
`(100, 0, 0)` — the full ambient-plus-diffuse pipeline — and not the claimed
direct contribution `diffuse_color * intensity = (40, 0, 0)`.  The source has
no per-light ambient special case at all. -/
theorem c7_ambient_rule_false :
    XQ.ble light0.intensity (XQ.fin (3/10)) = true ∧
    (closestHit M0 scene0 origin0 dir0).material.get_diffuse_color
        (closestHit M0 scene0 origin0 dir0).u (closestHit M0 scene0 origin0 dir0).v
      = some (Color.new 200 0 0) ∧
    cast_ray M0 origin0 dir0 scene0 light0 0 = some (Color.new 100 0 0) ∧
    Color.new 100 0 0 ≠ claimC7_contribution (Color.new 200 0 0) light0.intensity := by
  refine ⟨by norm_num [light0_intensity], ?_, cast_ray_scene0, ?_⟩
  · rw [closestHit_scene0, hitRec0_material, hitRec0_u, hitRec0_v, mat0_getdc]
  · norm_num [claimC7_contribution, light0_intensity, Int.toNat_ofNat, Color.new]
    decide

/-- C7 (amended): `cast_ray` applies no special case to lights of intensity
at most 0.3.  For such a light, exactly as for any other, a hit color is the
final blend of the full local pipeline: global ambient (`0.3*diffuse`), the
Lambertian diffuse term, and the shadow-attenuated Phong specular term, each
per channel and clamped — not the direct contribution
`diffuse_color * intensity` claimed by the spec. -/
theorem c7_full_pipeline_for_dim_lights (M : MathOps) (ray_origin ray_direction : V3)
    (objects : List Object) (lights : Light) (depth : ℕ) (c : Color)
    (hint : XQ.ble lights.intensity (XQ.fin (3/10)) = true)
    (hd : depth ≤ 1)
    (hhit : (closestHit M objects ray_origin ray_direction).is_intersecting = true)
    (hres : cast_ray M ray_origin ray_direction objects lights depth = some c) :
    ∃ diffuse_color reflect_color refract_color : Color,
      (closestHit M objects ray_origin ray_direction).material.get_diffuse_color
          (closestHit M objects ray_origin ray_direction).u
          (closestHit M objects ray_origin ray_direction).v = some diffuse_color ∧
      reflect_part M objects lights (1 - depth) ray_direction
          (closestHit M objects ray_origin ray_direction) = some reflect_color ∧
      refract_part M objects lights (1 - depth) ray_direction
          (closestHit M objects ray_origin ray_direction) = some refract_color ∧
      c = blend_colors
            (Color.new
              (min ((ambient_term diffuse_color).r +
                    (diffuse_term M lights (closestHit M objects ray_origin ray_direction)
                      diffuse_color).r +
                    (specular_term M ray_origin ray_direction objects lights
                      (closestHit M objects ray_origin ray_direction)).r) 255)
              (min ((ambient_term diffuse_color).g +
                    (diffuse_term M lights (closestHit M objects ray_origin ray_direction)
                      diffuse_color).g +
                    (specular_term M ray_origin ray_direction objects lights
                      (closestHit M objects ray_origin ray_direction)).g) 255)
              (min ((ambient_term diffuse_color).b +
                    (diffuse_term M lights (closestHit M objects ray_origin ray_direction)
                      diffuse_color).b +
                    (specular_term M ray_origin ray_direction objects lights
                      (closestHit M objects ray_origin ray_direction)).b) 255))
            reflect_color refract_color
            (closestHit M objects ray_origin ray_direction).material.albedo2
            (closestHit M objects ray_origin ray_direction).material.albedo3 := by
  rw [cast_ray_hit_eq M ray_origin ray_direction objects lights depth hd hhit] at hres
  cases hdc : (closestHit M objects ray_origin ray_direction).material.get_diffuse_color
      (closestHit M objects ray_origin ray_direction).u
      (closestHit M objects ray_origin ray_direction).v with
  | none => rw [hdc] at hres; exact absurd hres (by simp)
  | some dc =>
    rw [hdc] at hres
    cases hrp : reflect_part M objects lights (1 - depth) ray_direction
        (closestHit M objects ray_origin ray_direction) with
    | none => rw [hrp] at hres; exact absurd hres (by simp)
    | some rc =>
      rw [hrp] at hres
      cases hfp : refract_part M objects lights (1 - depth) ray_direction
          (closestHit M objects ray_origin ray_direction) with
      | none => rw [hfp] at hres; exact absurd hres (by simp)
      | some tc =>
        rw [hfp] at hres
        injection hres with hres
        exact ⟨dc, rc, tc, rfl, rfl, rfl, hres.symm⟩

theorem c7_full_pipeline_witness :
    ∃ diffuse_color reflect_color refract_color : Color,
      (closestHit M0 scene0 origin0 dir0).material.get_diffuse_color
          (closestHit M0 scene0 origin0 dir0).u
          (closestHit M0 scene0 origin0 dir0).v = some diffuse_color ∧
      reflect_part M0 scene0 light0 (1 - 0) dir0
          (closestHit M0 scene0 origin0 dir0) = some reflect_color ∧
      refract_part M0 scene0 light0 (1 - 0) dir0
          (closestHit M0 scene0 origin0 dir0) = some refract_color ∧
      Color.new 100 0 0 = blend_colors
            (Color.new
              (min ((ambient_term diffuse_color).r +
                    (diffuse_term M0 light0 (closestHit M0 scene0 origin0 dir0)
                      diffuse_color).r +
                    (specular_term M0 origin0 dir0 scene0 light0
                      (closestHit M0 scene0 origin0 dir0)).r) 255)
              (min ((ambient_term diffuse_color).g +
                    (diffuse_term M0 light0 (closestHit M0 scene0 origin0 dir0)
                      diffuse_color).g +
                    (specular_term M0 origin0 dir0 scene0 light0
                      (closestHit M0 scene0 origin0 dir0)).g) 255)
              (min ((ambient_term diffuse_color).b +
                    (diffuse_term M0 light0 (closestHit M0 scene0 origin0 dir0)
                      diffuse_color).b +
                    (specular_term M0 origin0 dir0 scene0 light0
                      (closestHit M0 scene0 origin0 dir0)).b) 255))
            reflect_color refract_color
            (closestHit M0 scene0 origin0 dir0).material.albedo2
            (closestHit M0 scene0 origin0 dir0).material.albedo3 :=
  c7_full_pipeline_for_dim_lights M0 origin0 dir0 scene0 light0 0 (Color.new 100 0 0)
    (by norm_num [light0_intensity]) (by norm_num)
    (by rw [closestHit_scene0]; rfl) cast_ray_scene0

theorem M1_sqrt : M1.sqrt = sqrtTab1 := rfl

theorem inter1_point : inter1.point = V3.zeros := rfl

theorem inter1_normal : inter1.normal = ⟨XQ.fin 0, XQ.fin 1, XQ.fin 0⟩ := rfl

theorem inter1_material : inter1.material = mat1 := rfl

theorem mat1_albedo0 : mat1.albedo0 = XQ.fin 1 := rfl

theorem light1_position : light1.position = ⟨XQ.fin 0, XQ.fin 5, XQ.fin 0⟩ := rfl

theorem light1_intensity : light1.intensity = XQ.fin (4/5) := rfl

/-- Concrete evaluation: from the `inter1` hit, the shadow ray toward
`light1` strikes `occluder1` at distance 1.5 of a light at distance 5, so
`cast_shadow` returns `1 - 1.5/5 = 7/10`. -/
theorem shadow_scene1 : cast_shadow M1 inter1 light1 scene1 = XQ.fin (7/10) := by
  norm_num [cast_shadow, castShadowLoop, scene1, Object.ray_intersect,
    Sphere.ray_intersect, inter1_point, inter1_normal, M1_sqrt, light1_position,
    occluder1, mat1, sqrtTab1, XQ.sqrtWith, V3.dot, V3.smul, V3.zeros,
    V3.normalizeWith, V3.magnitudeWith, Sphere.get_uv, Intersect.new,
    Intersect.empty, Material.black, M1]

/-- C1 counterexample: at the concrete shadowed hit `inter1` (shadow factor
`7/10` from `occluder1`), the diffuse term the code computes is
`100 * 1 * 1 * 0.8 = 80` per channel, while the diffuse term claimed by the
spec — with intensity scaled by `(1 - shadow)` — would be
`100 * 1 * 1 * (0.8 * 0.3) = 24`.  The code does not apply the shadow factor
to the diffuse contribution. -/
theorem c1_diffuse_shadow_claim_false :
    cast_shadow M1 inter1 light1 scene1 = XQ.fin (7/10) ∧
    diffuse_term M1 light1 inter1 dc1 = Color.new 80 80 80 ∧
    claimC1_diffuse M1 light1 scene1 inter1 dc1 = Color.new 24 24 24 ∧
    diffuse_term M1 light1 inter1 dc1 ≠ claimC1_diffuse M1 light1 scene1 inter1 dc1 := by
  have h1 : diffuse_term M1 light1 inter1 dc1 = Color.new 80 80 80 := by
    norm_num [diffuse_term, inter1_point, inter1_normal, inter1_material,
      mat1_albedo0, light1_position, light1_intensity, M1_sqrt, sqrtTab1,
      XQ.sqrtWith, V3.dot, V3.zeros, V3.normalizeWith, V3.magnitudeWith, dc1,
      Int.toNat_ofNat]
    decide
  have h2 : claimC1_diffuse M1 light1 scene1 inter1 dc1 = Color.new 24 24 24 := by
    norm_num [claimC1_diffuse, shadow_scene1, inter1_point, inter1_normal,
      inter1_material, mat1_albedo0, light1_position, light1_intensity, M1_sqrt,
      sqrtTab1, XQ.sqrtWith, V3.dot, V3.zeros, V3.normalizeWith, V3.magnitudeWith,
      dc1, Int.toNat_ofNat]
    decide
  refine ⟨shadow_scene1, h1, h2, ?_⟩
  rw [h1, h2]
  decide

/-- C1 (amended): in `cast_ray`, the accumulated local color of a hit is
`ambient + diffuse + specular` per channel (clamped at 255), where the
diffuse summand is
`diffuse_color * diffuse_k * clamp01(normal.lightDir) * lights.intensity` —
the raw, unattenuated light intensity — and only the specular summand uses
the shadow-scaled intensity `lights.intensity * (1 - cast_shadow ...)`. -/
theorem c1_diffuse_uses_raw_intensity (M : MathOps) (ray_origin ray_direction : V3)
    (objects : List Object) (lights : Light) (depth : ℕ) (c : Color)
    (hd : depth ≤ 1)
    (hhit : (closestHit M objects ray_origin ray_direction).is_intersecting = true)
    (hres : cast_ray M ray_origin ray_direction objects lights depth = some c) :
    ∃ diffuse_color reflect_color refract_color : Color,
      (closestHit M objects ray_origin ray_direction).material.get_diffuse_color
          (closestHit M objects ray_origin ray_direction).u
          (closestHit M objects ray_origin ray_direction).v = some diffuse_color ∧
      reflect_part M objects lights (1 - depth) ray_direction
          (closestHit M objects ray_origin ray_direction) = some reflect_color ∧
      refract_part M objects lights (1 - depth) ray_direction
          (closestHit M objects ray_origin ray_direction) = some refract_color ∧
      c = (let I := closestHit M objects ray_origin ray_direction
           let lambert := XQ.fmin (XQ.fmax (V3.dot I.normal
             (V3.normalizeWith M.sqrt (lights.position - I.point))) (XQ.fin 0)) (XQ.fin 1)
           let attenuated := lights.intensity * (XQ.fin 1 - cast_shadow M I lights objects)
           let spec := xpow M (XQ.fmax (V3.dot (V3.normalizeWith M.sqrt (ray_origin - I.point))
             (V3.normalizeWith M.sqrt (reflect (V3.neg ray_direction) I.normal))) (XQ.fin 0))
             I.material.specular
           blend_colors
             (Color.new
               (min ((ambient_term diffuse_color).r
                  + XQ.toU8 (XQ.fmin (natF diffuse_color.r * I.material.albedo0 * lambert *
                      lights.intensity) (XQ.fin 255))
                  + XQ.toU8 (XQ.fmin (natF lights.color.r * I.material.albedo1 * spec *
                      attenuated) (XQ.fin 255))) 255)
               (min ((ambient_term diffuse_color).g
                  + XQ.toU8 (XQ.fmin (natF diffuse_color.g * I.material.albedo0 * lambert *
                      lights.intensity) (XQ.fin 255))
                  + XQ.toU8 (XQ.fmin (natF lights.color.g * I.material.albedo1 * spec *
                      attenuated) (XQ.fin 255))) 255)
               (min ((ambient_term diffuse_color).b
                  + XQ.toU8 (XQ.fmin (natF diffuse_color.b * I.material.albedo0 * lambert *
                      lights.intensity) (XQ.fin 255))
                  + XQ.toU8 (XQ.fmin (natF lights.color.b * I.material.albedo1 * spec *
                      attenuated) (XQ.fin 255))) 255))
             reflect_color refract_color I.material.albedo2 I.material.albedo3) := by
  rw [cast_ray_hit_eq M ray_origin ray_direction objects lights depth hd hhit] at hres
  cases hdc : (closestHit M objects ray_origin ray_direction).material.get_diffuse_color
      (closestHit M objects ray_origin ray_direction).u
      (closestHit M objects ray_origin ray_direction).v with
  | none => rw [hdc] at hres; exact absurd hres (by simp)
  | some dc =>
    rw [hdc] at hres
    cases hrp : reflect_part M objects lights (1 - depth) ray_direction
        (closestHit M objects ray_origin ray_direction) with
    | none => rw [hrp] at hres; exact absurd hres (by simp)
    | some rc =>
      rw [hrp] at hres
      cases hfp : refract_part M objects lights (1 - depth) ray_direction
          (closestHit M objects ray_origin ray_direction) with
      | none => rw [hfp] at hres; exact absurd hres (by simp)
      | some tc =>
        rw [hfp] at hres
        injection hres with hres
        exact ⟨dc, rc, tc, rfl, rfl, rfl, hres.symm⟩

theorem c1_diffuse_raw_intensity_witness :
    ∃ diffuse_color reflect_color refract_color : Color,
      (closestHit M0 scene0 origin0 dir0).material.get_diffuse_color
          (closestHit M0 scene0 origin0 dir0).u
          (closestHit M0 scene0 origin0 dir0).v = some diffuse_color ∧
      reflect_part M0 scene0 light0 (1 - 0) dir0
          (closestHit M0 scene0 origin0 dir0) = some reflect_color ∧
      refract_part M0 scene0 light0 (1 - 0) dir0
          (closestHit M0 scene0 origin0 dir0) = some refract_color ∧
      Color.new 100 0 0 =
          (let I := closestHit M0 scene0 origin0 dir0
           let lambert := XQ.fmin (XQ.fmax (V3.dot I.normal
             (V3.normalizeWith M0.sqrt (light0.position - I.point))) (XQ.fin 0)) (XQ.fin 1)
           let attenuated := light0.intensity * (XQ.fin 1 - cast_shadow M0 I light0 scene0)
           let spec := xpow M0 (XQ.fmax (V3.dot (V3.normalizeWith M0.sqrt (origin0 - I.point))
             (V3.normalizeWith M0.sqrt (reflect (V3.neg dir0) I.normal))) (XQ.fin 0))
             I.material.specular
           blend_colors
             (Color.new
               (min ((ambient_term diffuse_color).r
                  + XQ.toU8 (XQ.fmin (natF diffuse_color.r * I.material.albedo0 * lambert *
                      light0.intensity) (XQ.fin 255))
                  + XQ.toU8 (XQ.fmin (natF light0.color.r * I.material.albedo1 * spec *
                      attenuated) (XQ.fin 255))) 255)
               (min ((ambient_term diffuse_color).g
                  + XQ.toU8 (XQ.fmin (natF diffuse_color.g * I.material.albedo0 * lambert *
                      light0.intensity) (XQ.fin 255))
                  + XQ.toU8 (XQ.fmin (natF light0.color.g * I.material.albedo1 * spec *
                      attenuated) (XQ.fin 255))) 255)
               (min ((ambient_term diffuse_color).b
                  + XQ.toU8 (XQ.fmin (natF diffuse_color.b * I.material.albedo0 * lambert *
                      light0.intensity) (XQ.fin 255))
                  + XQ.toU8 (XQ.fmin (natF light0.color.b * I.material.albedo1 * spec *
                      attenuated) (XQ.fin 255))) 255))
             reflect_color refract_color I.material.albedo2 I.material.albedo3) :=
  c1_diffuse_uses_raw_intensity M0 origin0 dir0 scene0 light0 0 (Color.new 100 0 0)
    (by norm_num) (by rw [closestHit_scene0]; rfl) cast_ray_scene0

/-- A magnitude is a nonnegative finite value, `+inf`, or NaN, provided the
platform square root is nonnegative on nonnegative arguments. -/
theorem magCases (M : MathOps) (hM : ∀ q : ℚ, 0 ≤ q → 0 ≤ M.sqrt q) (v : V3) :
    (∃ a : ℚ, V3.magnitudeWith M.sqrt v = XQ.fin a ∧ 0 ≤ a) ∨
    V3.magnitudeWith M.sqrt v = XQ.pinf ∨ V3.magnitudeWith M.sqrt v = XQ.nan := by
  rw [V3.magnitudeWith]
  cases h : V3.dot v v with
  | fin q =>
      by_cases hq : q < 0
      · right; right; simp [XQ.sqrtWith, hq]
      · left
        push_neg at hq
        exact ⟨M.sqrt q, by simp [XQ.sqrtWith, not_lt.mpr hq], hM q hq⟩
  | pinf => right; left; rfl
  | ninf => right; right; rfl
  | nan => right; right; rfl

/-- The `cast_shadow` loop always returns a finite value in `[0,1]`. -/
theorem shadowLoop01 (M : MathOps) (inter : Intersect) (light : Light)
    (so ld : V3) (hM : ∀ q : ℚ, 0 ≤ q → 0 ≤ M.sqrt q) :
    ∀ xs : List Object, ∃ q : ℚ,
      castShadowLoop M inter light so ld xs = XQ.fin q ∧ 0 ≤ q ∧ q ≤ 1 := by
  intro xs
  induction xs with
  | nil => exact ⟨0, rfl, by norm_num⟩
  | cons obj rest ih =>
    rw [castShadowLoop]
    by_cases hI : (Object.ray_intersect M obj so ld).is_intersecting = true
    · rw [if_pos hI]
      by_cases hLt : XQ.blt
          (V3.magnitudeWith M.sqrt ((Object.ray_intersect M obj so ld).point - inter.point))
          (V3.magnitudeWith M.sqrt (light.position - inter.point)) = true
      · rw [if_pos hLt]
        rcases magCases M hM ((Object.ray_intersect M obj so ld).point - inter.point) with
          ⟨a, ha, hanneg⟩ | h | h
        · rcases magCases M hM (light.position - inter.point) with
            ⟨b, hb, hbnneg⟩ | h2 | h2
          · rw [ha, hb] at hLt ⊢
            simp only [XQ.blt_fin_fin, decide_eq_true_eq] at hLt
            have hb0 : b ≠ 0 := by
              intro h0
              rw [h0] at hLt
              linarith
            rw [XQ.fin_div_fin_ne _ _ hb0]
            have hdivnn : 0 ≤ a / b := div_nonneg hanneg (by linarith)
            by_cases hc : a / b < 1
            · refine ⟨1 - a / b, ?_, by linarith, by linarith⟩
              simp [hc]
            · refine ⟨0, ?_, le_refl 0, by norm_num⟩
              simp [hc]
          · rw [ha, h2]
            refine ⟨1, ?_, by norm_num, by norm_num⟩
            simp
          · rw [h2] at hLt
            simp at hLt
        · rw [h] at hLt
          simp at hLt
        · rw [h] at hLt
          simp at hLt
      · rw [if_neg hLt]
        exact ih
    · rw [if_neg hI]
      exact ih

/-- The `cast_shadow` loop returns the shadow factor of the first object (in
list order) whose shadow-ray intersection lies strictly closer than the
light, and 0 when there is none. -/
theorem shadowFindChar (M : MathOps) (inter : Intersect) (light : Light) :
    ∀ xs : List Object,
      castShadowLoop M inter light
          (inter.point + V3.smul (XQ.fin (1/1000)) inter.normal)
          (V3.normalizeWith M.sqrt (light.position - inter.point)) xs =
        (match xs.find? (occludesShadowRay M inter light) with
         | none => XQ.fin 0
         | some obj => shadowValue M inter light obj) := by
  intro xs
  induction xs with
  | nil => rfl
  | cons obj rest ih =>
    rw [castShadowLoop]
    by_cases hp : occludesShadowRay M inter light obj = true
    · rw [List.find?_cons_of_pos _ hp]
      have hI := (Bool.and_eq_true _ _).mp hp
      rw [if_pos hI.1, if_pos hI.2]
      rfl
    · rw [List.find?_cons_of_neg _ hp]
      rw [occludesShadowRay, Bool.and_eq_true] at hp
      push_neg at hp
      by_cases hI : (Object.ray_intersect M obj
          (inter.point + V3.smul (XQ.fin (1/1000)) inter.normal)
          (V3.normalizeWith M.sqrt (light.position - inter.point))).is_intersecting = true
      · rw [if_pos hI, if_neg (by simpa using hp hI)]
        exact ih
      · rw [if_neg hI]
        exact ih

/-- C3: for every hit point, light and scene, `cast_shadow` returns a finite
value in `[0,1]` (given that the platform square root is nonnegative on
nonnegative arguments), and its value is exactly 0 when no object occludes
the shadow ray, and otherwise `1 - min(1, distanceToOccluder/distanceToLight)`
computed from the first object in list iteration order whose shadow-ray
intersection lies strictly closer than the light — the scan stops there, not
at the nearest occluder. -/
theorem c3_cast_shadow_contract (M : MathOps) (inter : Intersect) (light : Light)
    (objects : List Object) (hM : ∀ q : ℚ, 0 ≤ q → 0 ≤ M.sqrt q) :
    (∃ q : ℚ, cast_shadow M inter light objects = XQ.fin q ∧ 0 ≤ q ∧ q ≤ 1) ∧
    cast_shadow M inter light objects =
      (match objects.find? (occludesShadowRay M inter light) with
       | none => XQ.fin 0
       | some obj => shadowValue M inter light obj) := by
  constructor
  · exact shadowLoop01 M inter light _ _ hM objects
  · exact shadowFindChar M inter light objects

theorem c3_witness :
    (∃ q : ℚ, cast_shadow M0 hitRec0 light0 scene0 = XQ.fin q ∧ 0 ≤ q ∧ q ≤ 1) ∧
    cast_shadow M0 hitRec0 light0 scene0 =
      (match scene0.find? (occludesShadowRay M0 hitRec0 light0) with
       | none => XQ.fin 0
       | some obj => shadowValue M0 hitRec0 light0 obj) :=
  c3_cast_shadow_contract M0 hitRec0 light0 scene0 (by
    intro q hq
    rw [M0_sqrt]
    unfold sqrtTab0
    split_ifs <;> norm_num)

/-- A hit produced by a well-formed object carries a well-formed material. -/
theorem ray_intersect_material_wf (M : MathOps) (obj : Object) (o d : V3)
    (hw : wfObject obj = true)
    (hi : (Object.ray_intersect M obj o d).is_intersecting = true) :
    wfMaterial (Object.ray_intersect M obj o d).material = true := by
  cases obj with
  | sphere s =>
      simp only [Object.ray_intersect] at hi ⊢
      rw [sphere_eq] at hi ⊢
      split_ifs at hi ⊢ with h1 h2
      · simpa [wfObject] using hw
      · simp [Intersect.empty] at hi
      · simp [Intersect.empty] at hi
  | cube c =>
      have hall : ∀ i : Fin 6, wfMaterial (c.materials i) = true :=
        of_decide_eq_true (by simpa [wfObject] using hw)
      simp only [Object.ray_intersect] at hi ⊢
      rw [cube_eq] at hi ⊢
      split_ifs at hi ⊢ with h1 h2
      · simp [Intersect.empty] at hi
      · exact hall _
      · exact hall _

/-- The closest hit over a well-formed scene carries a well-formed material. -/
theorem closestHit_material_wf (M : MathOps) (objects : List Object) (o d : V3)
    (hw : wfScene objects = true)
    (hi : (closestHit M objects o d).is_intersecting = true) :
    wfMaterial (closestHit M objects o d).material = true := by
  have hall : ∀ x ∈ objects, wfObject x = true := by
    intro x hx
    exact List.all_eq_true.mp hw x hx
  suffices H : ∀ (xs : List Object) (acc : Intersect × XQ),
      (∀ x ∈ xs, wfObject x = true) →
      (acc.1.is_intersecting = true → wfMaterial acc.1.material = true) →
      ((xs.foldl (fun acc object =>
          let intersection := Object.ray_intersect M object o d
          if intersection.is_intersecting && XQ.blt intersection.distance acc.2
          then (intersection, intersection.distance)
          else acc) acc).1.is_intersecting = true →
        wfMaterial ((xs.foldl (fun acc object =>
          let intersection := Object.ray_intersect M object o d
          if intersection.is_intersecting && XQ.blt intersection.distance acc.2
          then (intersection, intersection.distance)
          else acc) acc).1.material) = true) by
    exact H objects (Intersect.empty, XQ.pinf) hall (by simp [Intersect.empty]) hi
  intro xs
  induction xs with
  | nil => intro acc hxs hacc; exact hacc
  | cons x rest ih =>
      intro acc hxs hacc
      rw [List.foldl_cons]
      apply ih _ (fun y hy => hxs y (List.mem_cons_of_mem _ hy))
      by_cases hcond : ((Object.ray_intersect M x o d).is_intersecting &&
          XQ.blt (Object.ray_intersect M x o d).distance acc.2) = true
      · simp only [hcond, if_true]
        intro _
        exact ray_intersect_material_wf M x o d (hxs x (List.mem_cons_self _ _))
          ((Bool.and_eq_true _ _).mp hcond).1
      · simp only [hcond, if_false]
        exact hacc

/-- On a well-formed material the diffuse-color lookup never panics. -/
theorem get_diffuse_wf (m : Material) (hm : wfMaterial m = true) (u v : XQ) :
    ∃ cc : Color, m.get_diffuse_color u v = some cc := by
  cases ht : m.texture with
  | none =>
      simp only [Material.get_diffuse_color, ht]
      exact ⟨m.diffuse, rfl⟩
  | some t =>
      rw [wfMaterial, ht] at hm
      simp only [Bool.and_eq_true, decide_eq_true_eq] at hm
      obtain ⟨⟨hwpos, hhpos⟩, hlen⟩ := hm
      simp only [Material.get_diffuse_color, ht]
      rw [if_neg (Nat.pos_iff_ne_zero.mp hwpos), if_neg (Nat.pos_iff_ne_zero.mp hhpos)]
      have hty : XQ.toUsize ((XQ.fin 1 - v) * natF t.height) % t.height < t.height :=
        Nat.mod_lt _ hhpos
      have htx : XQ.toUsize (u * natF t.width) % t.width < t.width :=
        Nat.mod_lt _ hwpos
      have hidx : (XQ.toUsize ((XQ.fin 1 - v) * natF t.height) % t.height) * t.width +
          (XQ.toUsize (u * natF t.width) % t.width) < t.data.length := by
        rw [hlen, Nat.mul_comm t.width t.height]
        calc (XQ.toUsize ((XQ.fin 1 - v) * natF t.height) % t.height) * t.width +
              (XQ.toUsize (u * natF t.width) % t.width)
            < (XQ.toUsize ((XQ.fin 1 - v) * natF t.height) % t.height) * t.width + t.width :=
              Nat.add_lt_add_left htx _
          _ = ((XQ.toUsize ((XQ.fin 1 - v) * natF t.height) % t.height) + 1) * t.width := by
              ring
          _ ≤ t.height * t.width := Nat.mul_le_mul_right _ (by omega)
      cases hg : t.data.get? ((XQ.toUsize ((XQ.fin 1 - v) * natF t.height) % t.height) * t.width +
          (XQ.toUsize (u * natF t.width) % t.width)) with
      | some pixel => exact ⟨Color.new pixel.r pixel.g pixel.b, rfl⟩
      | none =>
          have := List.get?_eq_none.mp hg
          omega

/-- The reflection branch is total when the recursion at the smaller budget is. -/
theorem reflect_part_total (M : MathOps) (objects : List Object) (lights : Light)
    (gas : ℕ) (rd : V3) (inter : Intersect)
    (ih : ∀ o d : V3, (castRayGo M objects lights gas o d).isSome = true) :
    (reflect_part M objects lights gas rd inter).isSome = true := by
  simp only [reflect_part]
  split_ifs with h
  · cases hrec : castRayGo M objects lights gas
        (inter.point + V3.smul (XQ.fin (1/1000)) inter.normal)
        (V3.normalizeWith M.sqrt (reflect (V3.neg rd) inter.normal)) with
    | none =>
        have hcontra := ih (inter.point + V3.smul (XQ.fin (1/1000)) inter.normal)
          (V3.normalizeWith M.sqrt (reflect (V3.neg rd) inter.normal))
        rw [hrec] at hcontra
        exact absurd hcontra (by simp)
    | some rc => rfl
  · rfl

/-- The refraction branch is total when the recursion at the smaller budget is. -/
theorem refract_part_total (M : MathOps) (objects : List Object) (lights : Light)
    (gas : ℕ) (rd : V3) (inter : Intersect)
    (ih : ∀ o d : V3, (castRayGo M objects lights gas o d).isSome = true) :
    (refract_part M objects lights gas rd inter).isSome = true := by
  simp only [refract_part]
  split_ifs with h
  · cases hrec : castRayGo M objects lights gas
        (inter.point + V3.smul (XQ.fin (1/1000)) inter.normal)
        (V3.normalizeWith M.sqrt (refract M rd inter.normal inter.material.refractive_index)) with
    | none =>
        have hcontra := ih (inter.point + V3.smul (XQ.fin (1/1000)) inter.normal)
          (V3.normalizeWith M.sqrt (refract M rd inter.normal inter.material.refractive_index))
        rw [hrec] at hcontra
        exact absurd hcontra (by simp)
    | some rc => rfl
  · rfl

/-- Totality of the shading recursion over a well-formed scene. -/
theorem castRayGo_total (M : MathOps) (objects : List Object) (lights : Light)
    (hw : wfScene objects = true) :
    ∀ (gas : ℕ) (o d : V3), (castRayGo M objects lights gas o d).isSome = true := by
  intro gas
  induction gas with
  | zero => intro o d; rfl
  | succ g ih =>
      intro o d
      simp only [castRayGo_succ_eq]
      by_cases hcl : (closestHit M objects o d).is_intersecting = true
      · rw [if_neg (by simp [hcl])]
        obtain ⟨dc, hdc⟩ := get_diffuse_wf _ (closestHit_material_wf M objects o d hw hcl)
          (closestHit M objects o d).u (closestHit M objects o d).v
        rw [hdc]
        obtain ⟨rc, hrc⟩ := Option.isSome_iff_exists.mp
          (reflect_part_total M objects lights g d _ ih)
        rw [hrc]
        obtain ⟨tc, htc⟩ := Option.isSome_iff_exists.mp
          (refract_part_total M objects lights g d _ ih)
        rw [htc]
        rfl
      · rw [if_pos (by simpa using hcl)]
        rfl

/-- C10: for every ray origin, direction, scene, light and depth, `cast_ray`
returns a color and never panics: in the model every panic site (the texture
lookup in `get_diffuse_color`) is `none`, and the result is `isSome` whenever
the scene is well formed (each texture a true width-by-height grid, which is
what `load_texture` produces).  Geometric edge cases — tangent rays,
zero-length vectors, division by zero direction components in the slab test,
total internal reflection — all flow through the total `XQ` semantics into
fallback values, not failures. -/
theorem c10_never_panics (M : MathOps) (ray_origin ray_direction : V3)
    (objects : List Object) (lights : Light) (depth : ℕ)
    (hw : wfScene objects = true) :
    (cast_ray M ray_origin ray_direction objects lights depth).isSome = true :=
  castRayGo_total M objects lights hw (2 - depth) ray_origin ray_direction

theorem c10_witness :
    wfScene scene0 = true ∧
    (cast_ray M0 origin0 dir0 scene0 light0 0).isSome = true :=
  ⟨rfl, c10_never_panics M0 origin0 dir0 scene0 light0 0 rfl⟩

/-- `Camera.orbit` written via the named spherical-coordinate helpers: the new
eye is rebuilt from the radius, the wrapped yaw and the clamped pitch, while
the center and up vector pass through unchanged. -/
theorem orbit_eq (M : MathOps) (cam : Camera) (dy dp : XQ) :
    Camera.orbit M cam dy dp =
      ⟨cam.center +
        (⟨orbitRadius M cam *
            xcos M (XQ.frem (orbitYaw M cam + dy) (XQ.fin 2 * XQ.fin M.pi)) *
            xcos M (XQ.fclamp (orbitPitch M cam + dp)
              (XQ.fin (-M.pi / 2 + 1/10)) (XQ.fin (M.pi / 2 - 1/10))),
          -orbitRadius M cam *
            xsin M (XQ.fclamp (orbitPitch M cam + dp)
              (XQ.fin (-M.pi / 2 + 1/10)) (XQ.fin (M.pi / 2 - 1/10))),
          orbitRadius M cam *
            xsin M (XQ.frem (orbitYaw M cam + dy) (XQ.fin 2 * XQ.fin M.pi)) *
            xcos M (XQ.fclamp (orbitPitch M cam + dp)
              (XQ.fin (-M.pi / 2 + 1/10)) (XQ.fin (M.pi / 2 - 1/10)))⟩ : V3),
       cam.center, cam.up⟩ := rfl

/-- C9: orbit round trip.  Away from the pitch-clamp boundary (`h1`: clamping
the current pitch is the identity) and assuming the platform math functions
are exact at the points reached — the radius and spherical angles recovered
from the once-orbited eye equal the ones that built it (`h2`–`h4`), the yaw
wrap-around cancels (`h5`), and the original eye equals its own spherical
reconstruction (`h6`, the statement that `atan2`/`sin`/`cos`/`sqrt` invert
each other, true of the real functions) — calling `orbit d 0` and then
`orbit (-d) 0` restores the eye position, and neither call changes the
camera center: orbit pivots around the look-at target. -/
theorem c9_orbit_roundtrip (M : MathOps) (cam : Camera) (d : XQ)
    (h1 : XQ.fclamp (orbitPitch M cam + XQ.fin 0)
        (XQ.fin (-M.pi / 2 + 1/10)) (XQ.fin (M.pi / 2 - 1/10)) = orbitPitch M cam)
    (h2 : orbitRadius M (Camera.orbit M cam d (XQ.fin 0)) = orbitRadius M cam)
    (h3 : orbitYaw M (Camera.orbit M cam d (XQ.fin 0)) =
        XQ.frem (orbitYaw M cam + d) (XQ.fin 2 * XQ.fin M.pi))
    (h4 : orbitPitch M (Camera.orbit M cam d (XQ.fin 0)) = orbitPitch M cam)
    (h5 : XQ.frem (XQ.frem (orbitYaw M cam + d) (XQ.fin 2 * XQ.fin M.pi) + -d)
        (XQ.fin 2 * XQ.fin M.pi) = orbitYaw M cam)
    (h6 : cam.center +
        (⟨orbitRadius M cam * xcos M (orbitYaw M cam) * xcos M (orbitPitch M cam),
          -orbitRadius M cam * xsin M (orbitPitch M cam),
          orbitRadius M cam * xsin M (orbitYaw M cam) * xcos M (orbitPitch M cam)⟩ : V3)
        = cam.eye) :
    (Camera.orbit M cam d (XQ.fin 0)).center = cam.center ∧
    (Camera.orbit M (Camera.orbit M cam d (XQ.fin 0)) (-d) (XQ.fin 0)).center = cam.center ∧
    (Camera.orbit M (Camera.orbit M cam d (XQ.fin 0)) (-d) (XQ.fin 0)).eye = cam.eye := by
  refine ⟨rfl, rfl, ?_⟩
  rw [orbit_eq M (Camera.orbit M cam d (XQ.fin 0)) (-d) (XQ.fin 0)]
  simp only []
  rw [h3, h2, h4, h5, h1]
  have hc : (Camera.orbit M cam d (XQ.fin 0)).center = cam.center := rfl
  rw [hc]
  exact h6

theorem c9_orbit_witness :
    (Camera.orbit M9 cam9 (XQ.fin 1) (XQ.fin 0)).center = cam9.center ∧
    (Camera.orbit M9 (Camera.orbit M9 cam9 (XQ.fin 1) (XQ.fin 0)) (-(XQ.fin 1))
        (XQ.fin 0)).center = cam9.center ∧
    (Camera.orbit M9 (Camera.orbit M9 cam9 (XQ.fin 1) (XQ.fin 0)) (-(XQ.fin 1))
        (XQ.fin 0)).eye = cam9.eye :=
  c9_orbit_roundtrip M9 cam9 (XQ.fin 1)
    (by norm_num [orbitPitch, orbitRadiusVector, M9, cam9, xatan2, XQ.sqrtWith,
      XQ.fclamp, V3.sub, V3.zeros])
    (by norm_num [orbitRadius, orbitRadiusVector, M9, cam9, Camera.orbit, xatan2,
      xcos, xsin, XQ.sqrtWith, XQ.fclamp, XQ.frem, ratTrunc, V3.sub, V3.zeros,
      V3.add, V3.magnitudeWith, V3.dot])
    (by norm_num [orbitYaw, orbitRadiusVector, M9, cam9, Camera.orbit, xatan2,
      xcos, xsin, XQ.sqrtWith, XQ.fclamp, XQ.frem, ratTrunc, V3.sub, V3.zeros,
      V3.add, V3.magnitudeWith, V3.dot])
    (by norm_num [orbitPitch, orbitRadiusVector, M9, cam9, Camera.orbit, xatan2,
      xcos, xsin, XQ.sqrtWith, XQ.fclamp, XQ.frem, ratTrunc, V3.sub, V3.zeros,
      V3.add, V3.magnitudeWith, V3.dot])
    (by norm_num [orbitYaw, orbitRadiusVector, M9, cam9, xatan2, XQ.frem, ratTrunc,
      V3.sub, V3.zeros])
    (by norm_num [orbitRadius, orbitYaw, orbitPitch, orbitRadiusVector, M9, cam9,
      xatan2, xcos, xsin, XQ.sqrtWith, V3.sub, V3.zeros, V3.add,
      V3.magnitudeWith, V3.dot])
